import Mathlib

/-!
# wholeDoor.js: the camera (Ratiovision) and the input router (MasterController)

A shallow embedding of `src/wholeDoor.js`.  The drawing context and the console are
output traces; an exception is an `Except.error`.

The camera is embedded twice, line for line the same, under two readings of a JavaScript
number:

* `Ratiovision`: numbers are exact rationals (`ℚ`) and no operation rounds.  This is the
  reading for statements made "in exact arithmetic"; its theorems about derived fields
  assume non-zero divisors, since a division by zero (`Infinity` or `NaN` in JavaScript)
  has no exact counterpart.
* `Ieee.Ratiovision`: numbers are IEEE-754 binary64 values (`JsNumber`), every operation
  rounds to nearest, ties to even, with `Infinity` and `NaN`.  This is what the code
  computes.
-/

namespace WholeDoor

/-! ## Data model -/

/-- A raised JavaScript exception: a runtime `TypeError`, or a value thrown by user code. -/
inductive JsError where
  | typeError (msg : String)
  | thrown (value : String)
  deriving DecidableEq, Repr

/-- The bound canvas element; only its two size attributes are written by the camera. -/
structure Canvas where
  width : ℚ
  height : ℚ
  deriving DecidableEq, Repr

/-- The globals `innerWidth` and `innerHeight` read by `resized()`. -/
structure Window where
  innerWidth : ℚ
  innerHeight : ℚ
  deriving DecidableEq, Repr

/-- One call on the 2d drawing context `this.ctx`. -/
inductive CtxOp where
  | beginPath
  | moveTo (px py : ℚ)
  | setStrokeStyle (style : String)
  | lineTo (px py : ℚ)
  | stroke
  | clearRect (px py w h : ℚ)
  deriving DecidableEq, Repr

/-- The fields of a `Ratiovision` object (`this.ctx` is the trace of `CtxOp`s). -/
structure Ratiovision where
  ratioWidth : ℚ
  ratioHeight : ℚ
  canvas : Canvas
  points : ℚ
  x : ℚ
  y : ℚ
  maxX : ℚ
  maxY : ℚ
  scale : ℚ
  height : ℚ
  width : ℚ
  deriving DecidableEq, Repr

/-- The arguments of one `this.drawLine(startX, startY, endX, endY, style)` call. -/
structure LineArgs where
  startX : ℚ
  startY : ℚ
  endX : ℚ
  endY : ℚ
  style : String
  deriving DecidableEq, Repr

namespace Ratiovision

/-! ## Ratiovision.resized -/

/-- The local `gridLength` of `resized()` once the `if` has run: the width is tried first,
and the height is used when the grid would be taller than the screen. -/
def gridLength (w : Window) (r : Ratiovision) : ℚ :=
  let gridLength := w.innerWidth / r.ratioWidth
  if gridLength * r.ratioHeight > w.innerHeight then
    w.innerHeight / r.ratioHeight
  else
    gridLength

/-- Method `resized()` (lines 42-71), statement by statement, in exact arithmetic (no
operation rounds; `Ieee.Ratiovision.resized` is the same method in binary64 arithmetic). -/
def resized (w : Window) (r : Ratiovision) : Ratiovision :=
  -- always try to use the full available screen
  let r := { r with x := 0 }
  let r := { r with y := 0 }
  let r := { r with height := w.innerHeight }
  let r := { r with width := w.innerWidth }
  -- try to use the most width first
  let gridLength := r.width / r.ratioWidth
  -- check the units, can't be above screen height
  let (gridLength, r) :=
    if gridLength * r.ratioHeight > r.height then
      let gridLength := r.height / r.ratioHeight
      (gridLength, { r with x := (r.width - (r.ratioWidth * gridLength)) / 2 })
    else
      (gridLength, r)
  let r := { r with y := (r.height - (r.ratioHeight * gridLength)) / 2 }
  let r := { r with maxX := gridLength * r.ratioWidth }
  let r := { r with maxY := gridLength * r.ratioHeight }
  let r := { r with scale := gridLength / r.points }
  -- resize the Canvas
  let r := { r with canvas := { r.canvas with height := r.height } }
  let r := { r with canvas := { r.canvas with width := r.width } }
  r

/-- The grid unit length in the words of the specification:
`gridUnitLength = min(displayWidth/ratioWidth, displayHeight/ratioHeight)`. -/
def gridUnitLengthSpec (w : Window) (r : Ratiovision) : ℚ :=
  min (w.innerWidth / r.ratioWidth) (w.innerHeight / r.ratioHeight)

/-! ## Ratiovision.constructor -/

/-- The constructor (lines 16-36).  `boundedCanvas` is `none` for `null`, on which
`this.canvas.getContext` raises a `TypeError`; `points` defaults to 100.
The numeric arguments are stored as given. -/
def constructor (w : Window) (ratioWidth ratioHeight : ℚ) (boundedCanvas : Option Canvas)
    (points : ℚ := 100) : Except JsError Ratiovision :=
  match boundedCanvas with
  | none => .error (.typeError "Cannot read properties of null (reading getContext)")
  | some canvas =>
    let r : Ratiovision :=
      { ratioWidth := ratioWidth, ratioHeight := ratioHeight, canvas := canvas,
        points := points, x := 0, y := 0, maxX := 0, maxY := 0, scale := 0,
        height := 0, width := 0 }
    .ok (resized w r)

/-! ## Ratiovision.clear, drawLine, drawGrid -/

/-- Method `clear()` (lines 77-79). -/
def clear (r : Ratiovision) : Ratiovision × List CtxOp :=
  (r, [CtxOp.clearRect 0 0 r.width r.height])

/-- Method `drawLine` (lines 91-97): the state is returned as it was, with the five
context calls in order.  `style` defaults to `"black"`. -/
def drawLine (r : Ratiovision) (startX startY endX endY : ℚ) (style : String := "black") :
    Ratiovision × List CtxOp :=
  (r, [CtxOp.beginPath,
       CtxOp.moveTo (r.x + (startX * r.scale)) (r.y + (startY * r.scale)),
       CtxOp.setStrokeStyle style,
       CtxOp.lineTo (r.x + (endX * r.scale)) (r.y + (endY * r.scale)),
       CtxOp.stroke])

/-- The first `while` of `drawGrid()` (lines 109-113) from the loop variable `i`, with at
most `fuel` evaluations of the loop condition; `none` when the fuel runs out. -/
def drawGridVertical (r : Ratiovision) : Nat → ℚ → Option (List LineArgs)
  | 0, _ => none
  | fuel + 1, i =>
    let displayWidth := r.points * r.ratioWidth
    let displayHeight := r.points * r.ratioHeight
    if i ≤ displayWidth then
      (drawGridVertical r fuel (i + r.points)).map
        (fun rest => LineArgs.mk i 0 i displayHeight "green" :: rest)
    else
      some []

/-- The second `while` of `drawGrid()` (lines 116-120), as `drawGridVertical`. -/
def drawGridHorizontal (r : Ratiovision) : Nat → ℚ → Option (List LineArgs)
  | 0, _ => none
  | fuel + 1, i =>
    let displayWidth := r.points * r.ratioWidth
    let displayHeight := r.points * r.ratioHeight
    if i ≤ displayHeight then
      (drawGridHorizontal r fuel (i + r.points)).map
        (fun rest => LineArgs.mk 0 i displayWidth i "green" :: rest)
    else
      some []

/-- Method `drawGrid()` (lines 103-121): the `drawLine` calls it makes, in order; both
loops start from `i = 0`. -/
def drawGridCalls (fuel : Nat) (r : Ratiovision) : Option (List LineArgs) :=
  match drawGridVertical r fuel 0 with
  | none => none
  | some vs =>
    match drawGridHorizontal r fuel 0 with
    | none => none
    | some hs => some (vs ++ hs)

/-- Method `drawGrid()` down to the drawing context: each call goes through `drawLine`. -/
def drawGrid (fuel : Nat) (r : Ratiovision) : Option (Ratiovision × List CtxOp) :=
  (drawGridCalls fuel r).map fun calls =>
    (r, calls.flatMap fun c => (drawLine r c.startX c.startY c.endX c.endY c.style).2)

end Ratiovision

/-! ## MasterController -/

/-- What a key dispatch does to the outside world: a `console.log`, or a call of one of
the two callbacks of the assigned object (named by its `id`) with `this.keyMap[key]`,
where `none` is `undefined`. -/
inductive Effect where
  | consoleLog (msg : String)
  | doActionDown (target : Nat) (action : Option Int)
  | doActionUp (target : Nat) (action : Option Int)
  deriving DecidableEq, Repr

/-- An object that can be assigned to the controller.  As the `@preCon` of `doKeyUp` and
`doKeyDown` asks, it implements `doActionUp(action)` and `doActionDown(action)`; either
may raise. -/
structure Target where
  id : Nat
  doActionDown : Option Int → Except JsError Unit
  doActionUp : Option Int → Except JsError Unit

/-- The fields of a `MasterController`.  `assignedObject` is `none` for `null`; `keyMap`
is a JavaScript array of action numbers, `none` being a hole. -/
structure MasterController where
  assignedObject : Option Target
  keyMap : List (Option Int)

/-- The outcome of one dispatch: the controller afterwards, the effects in order, and
whether the call returned or raised. -/
structure Dispatch where
  state : MasterController
  trace : List Effect
  result : Except JsError Unit

namespace MasterController

/-- The array read `keyMap[key]`: `undefined` past the end and on a hole. -/
def keyMapGet (keyMap : List (Option Int)) (key : Nat) : Option Int :=
  match keyMap[key]? with
  | some (some action) => some action
  | _ => none

/-- The array write `keyMap[key] = action`: in place when `key` is below the length,
otherwise the array grows to length `key + 1` and the skipped indices are holes. -/
def keyMapSet (keyMap : List (Option Int)) (key : Nat) (action : Int) : List (Option Int) :=
  if key < keyMap.length then
    keyMap.set key (some action)
  else
    keyMap ++ List.replicate (key - keyMap.length) none ++ [some action]

/-- Whether `key` has an entry in the array (`key in keyMap`). -/
def hasEntry (keyMap : List (Option Int)) (key : Nat) : Bool :=
  match keyMap[key]? with
  | some (some _) => true
  | _ => false

/-- The constructor (lines 131-134). -/
def constructor : MasterController :=
  { assignedObject := none, keyMap := [] }

/-- Method `assignKey(key, action)` (lines 145-147). -/
def assignKey (mc : MasterController) (key : Nat) (action : Int) : MasterController :=
  { mc with keyMap := keyMapSet mc.keyMap key action }

/-- Method `assignObject(object)` (lines 156-158). -/
def assignObject (mc : MasterController) (object : Option Target) : MasterController :=
  { mc with assignedObject := object }

/-- Method `doKeyUp(key)` (lines 168-175). -/
def doKeyUp (mc : MasterController) (key : Nat) : Dispatch :=
  match mc.assignedObject with
  | some target =>
    { state := mc
      trace := [Effect.doActionUp target.id (keyMapGet mc.keyMap key)]
      result := target.doActionUp (keyMapGet mc.keyMap key) }
  | none =>
    { state := mc
      trace := [Effect.consoleLog
        "MasterController needs an assigned object for doKeyUp(key) to work."]
      result := .ok () }

/-- Method `doKeyDown(key)` (lines 185-192). -/
def doKeyDown (mc : MasterController) (key : Nat) : Dispatch :=
  match mc.assignedObject with
  | some target =>
    { state := mc
      trace := [Effect.doActionDown target.id (keyMapGet mc.keyMap key)]
      result := target.doActionDown (keyMapGet mc.keyMap key) }
  | none =>
    { state := mc
      trace := [Effect.consoleLog
        "MasterController needs an assigned object for doKeyDown(key) to work."]
      result := .ok () }

end MasterController

/-- The controller of the game script after its six `assignKey` calls (lines 202-210):
W, A, S, D, J and K are actions 0 to 5, and no object is assigned. -/
def gameController : MasterController :=
  (((((MasterController.constructor.assignKey 87 0).assignKey 65 1).assignKey 83 2).assignKey
    68 3).assignKey 74 4).assignKey 75 5

/-- A target whose two callbacks return normally. -/
def quietTarget (id : Nat) : Target :=
  { id := id, doActionDown := fun _ => .ok (), doActionUp := fun _ => .ok () }

/-- A target that raises when it is handed `undefined` and returns normally otherwise. -/
def strictTarget (id : Nat) : Target :=
  { id := id
    doActionDown := fun action =>
      match action with
      | none => .error (.thrown "unknown action")
      | some _ => .ok ()
    doActionUp := fun action =>
      match action with
      | none => .error (.thrown "unknown action")
      | some _ => .ok () }

/-! ## Example states and the lines of the grid -/

/-- A 16:9 camera with 100 points per ratio unit, as the game builds it, before any
`resized()` has run. -/
def camera169 : Ratiovision :=
  { ratioWidth := 16, ratioHeight := 9, canvas := ⟨300, 150⟩, points := 100,
    x := 0, y := 0, maxX := 0, maxY := 0, scale := 0, height := 0, width := 0 }

/-- The vertical line `drawGrid()` draws at the multiple `j` of `points`. -/
def verticalLine (r : Ratiovision) (j : ℕ) : LineArgs :=
  LineArgs.mk ((j : ℚ) * r.points) 0 ((j : ℚ) * r.points) (r.points * r.ratioHeight) "green"

/-- The horizontal line `drawGrid()` draws at the multiple `j` of `points`. -/
def horizontalLine (r : Ratiovision) (j : ℕ) : LineArgs :=
  LineArgs.mk 0 ((j : ℚ) * r.points) (r.points * r.ratioWidth) ((j : ℚ) * r.points) "green"

/-- The five context calls of one green `drawLine` from the device point `(x0, y0)` to
the device point `(x1, y1)`. -/
def greenPath (x0 y0 x1 y1 : ℚ) : List CtxOp :=
  [CtxOp.beginPath, CtxOp.moveTo x0 y0, CtxOp.setStrokeStyle "green", CtxOp.lineTo x1 y1,
    CtxOp.stroke]

/-- The context calls of a run of `drawLine` calls on the transform `r`, in order. -/
def linePaths (r : Ratiovision) (calls : List LineArgs) : List CtxOp :=
  calls.flatMap fun c => (r.drawLine c.startX c.startY c.endX c.endY c.style).2

/-! ## JavaScript numbers as IEEE-754 binary64 values -/

/-- The integer nearest to `q`; a tie goes to the even one. -/
def roundHalfEven (q : ℚ) : ℤ :=
  let f := ⌊q⌋
  if q - f < 1 / 2 then f
  else if 1 / 2 < q - f then f + 1
  else if f % 2 = 0 then f else f + 1

/-- The exponent of the unit in the last place of the binary64 values around `q`: 52 below
the binary exponent of `|q|`, and never below -1074 (the subnormal range). -/
def ulpExponent (q : ℚ) : ℤ :=
  max (Int.log 2 |q| - 52) (-1074)

/-- Rounding to the nearest multiple of the unit in the last place, ties to even: the
binary64 value nearest to `q` as long as the result is below `2 ^ 1024`. -/
def roundDouble (q : ℚ) : ℚ :=
  (roundHalfEven (q / 2 ^ ulpExponent q) : ℚ) * 2 ^ ulpExponent q

/-- A JavaScript number: a finite value, `Infinity`, `-Infinity` or `NaN`.  The two zeros
are one value; the code divides only by its arguments and by 2, never by a computed
zero, so the sign of a zero never shows. -/
inductive JsNumber where
  | finite (value : ℚ)
  | posInf
  | negInf
  | nan
  deriving DecidableEq, Repr

namespace JsNumber

/-- The result of an operation whose exact value is `q`: rounded, and infinite when the
rounded value is beyond the largest binary64. -/
def ofExact (q : ℚ) : JsNumber :=
  if 2 ^ 1024 ≤ roundDouble q then posInf
  else if roundDouble q ≤ -2 ^ 1024 then negInf
  else finite (roundDouble q)

/-- Unary minus. -/
def neg : JsNumber → JsNumber
  | finite a => finite (-a)
  | posInf => negInf
  | negInf => posInf
  | nan => nan

/-- The operator `+`. -/
def add : JsNumber → JsNumber → JsNumber
  | finite a, finite b => ofExact (a + b)
  | finite _, posInf => posInf
  | finite _, negInf => negInf
  | posInf, finite _ => posInf
  | posInf, posInf => posInf
  | negInf, finite _ => negInf
  | negInf, negInf => negInf
  | _, _ => nan

/-- The operator `-`. -/
def sub (a b : JsNumber) : JsNumber :=
  add a (neg b)

/-- The operator `*`. -/
def mul : JsNumber → JsNumber → JsNumber
  | finite a, finite b => ofExact (a * b)
  | finite a, posInf => if a = 0 then nan else if 0 < a then posInf else negInf
  | finite a, negInf => if a = 0 then nan else if 0 < a then negInf else posInf
  | posInf, finite b => if b = 0 then nan else if 0 < b then posInf else negInf
  | negInf, finite b => if b = 0 then nan else if 0 < b then negInf else posInf
  | posInf, posInf => posInf
  | posInf, negInf => negInf
  | negInf, posInf => negInf
  | negInf, negInf => posInf
  | _, _ => nan

/-- The operator `/`. -/
def div : JsNumber → JsNumber → JsNumber
  | finite a, finite b =>
    if b = 0 then
      if a = 0 then nan else if 0 < a then posInf else negInf
    else
      ofExact (a / b)
  | finite _, posInf => finite 0
  | finite _, negInf => finite 0
  | posInf, finite b => if 0 ≤ b then posInf else negInf
  | negInf, finite b => if 0 ≤ b then negInf else posInf
  | _, _ => nan

/-- The comparison `a > b`; false when either side is `NaN`. -/
def gt : JsNumber → JsNumber → Bool
  | finite a, finite b => decide (b < a)
  | finite _, negInf => true
  | posInf, finite _ => true
  | posInf, negInf => true
  | _, _ => false

end JsNumber

namespace Ieee

/-- The bound canvas element, its sizes being JavaScript numbers. -/
structure Canvas where
  width : JsNumber
  height : JsNumber
  deriving DecidableEq, Repr

/-- The globals `innerWidth` and `innerHeight`. -/
structure Window where
  innerWidth : JsNumber
  innerHeight : JsNumber
  deriving DecidableEq, Repr

/-- One call on the 2d drawing context `this.ctx`. -/
inductive CtxOp where
  | beginPath
  | moveTo (px py : JsNumber)
  | setStrokeStyle (style : String)
  | lineTo (px py : JsNumber)
  | stroke
  deriving DecidableEq, Repr

/-- The fields of a `Ratiovision` object, as JavaScript numbers. -/
structure Ratiovision where
  ratioWidth : JsNumber
  ratioHeight : JsNumber
  canvas : Canvas
  points : JsNumber
  x : JsNumber
  y : JsNumber
  maxX : JsNumber
  maxY : JsNumber
  scale : JsNumber
  height : JsNumber
  width : JsNumber
  deriving DecidableEq, Repr

namespace Ratiovision

/-- The local `gridLength` of `resized()` once the `if` has run. -/
def gridLength (w : Window) (r : Ratiovision) : JsNumber :=
  let gridLength := JsNumber.div w.innerWidth r.ratioWidth
  if JsNumber.gt (JsNumber.mul gridLength r.ratioHeight) w.innerHeight then
    JsNumber.div w.innerHeight r.ratioHeight
  else
    gridLength

/-- Method `resized()` (lines 42-71), statement by statement, in binary64 arithmetic. -/
def resized (w : Window) (r : Ratiovision) : Ratiovision :=
  -- always try to use the full available screen
  let r := { r with x := JsNumber.finite 0 }
  let r := { r with y := JsNumber.finite 0 }
  let r := { r with height := w.innerHeight }
  let r := { r with width := w.innerWidth }
  -- try to use the most width first
  let gridLength := JsNumber.div r.width r.ratioWidth
  -- check the units, can't be above screen height
  let (gridLength, r) :=
    if JsNumber.gt (JsNumber.mul gridLength r.ratioHeight) r.height then
      let gridLength := JsNumber.div r.height r.ratioHeight
      (gridLength,
        { r with x := (JsNumber.div
            (JsNumber.sub r.width (JsNumber.mul r.ratioWidth gridLength))
            (JsNumber.finite 2)) })
    else
      (gridLength, r)
  let r := { r with y := (JsNumber.div
    (JsNumber.sub r.height (JsNumber.mul r.ratioHeight gridLength)) (JsNumber.finite 2)) }
  let r := { r with maxX := JsNumber.mul gridLength r.ratioWidth }
  let r := { r with maxY := JsNumber.mul gridLength r.ratioHeight }
  let r := { r with scale := JsNumber.div gridLength r.points }
  -- resize the Canvas
  let r := { r with canvas := { r.canvas with height := r.height } }
  let r := { r with canvas := { r.canvas with width := r.width } }
  r

/-- The constructor (lines 16-36), in binary64 arithmetic; `boundedCanvas` is `none` for
`null`, and `points` defaults to 100. -/
def constructor (w : Window) (ratioWidth ratioHeight : JsNumber)
    (boundedCanvas : Option Canvas) (points : JsNumber := JsNumber.finite 100) :
    Except JsError Ratiovision :=
  match boundedCanvas with
  | none => .error (.typeError "Cannot read properties of null (reading getContext)")
  | some canvas =>
    let r : Ratiovision :=
      { ratioWidth := ratioWidth, ratioHeight := ratioHeight, canvas := canvas,
        points := points, x := JsNumber.finite 0, y := JsNumber.finite 0,
        maxX := JsNumber.finite 0, maxY := JsNumber.finite 0, scale := JsNumber.finite 0,
        height := JsNumber.finite 0, width := JsNumber.finite 0 }
    .ok (resized w r)

/-- Method `drawLine` (lines 91-97), in binary64 arithmetic. -/
def drawLine (r : Ratiovision) (startX startY endX endY : JsNumber)
    (style : String := "black") : Ratiovision × List CtxOp :=
  (r, [CtxOp.beginPath,
       CtxOp.moveTo (JsNumber.add r.x (JsNumber.mul startX r.scale))
         (JsNumber.add r.y (JsNumber.mul startY r.scale)),
       CtxOp.setStrokeStyle style,
       CtxOp.lineTo (JsNumber.add r.x (JsNumber.mul endX r.scale))
         (JsNumber.add r.y (JsNumber.mul endY r.scale)),
       CtxOp.stroke])

end Ratiovision

/-- A camera of the given ratio with 100 points per ratio unit, before any `resized()`
has run. -/
def camera (ratioWidth ratioHeight : ℚ) : Ratiovision :=
  { ratioWidth := JsNumber.finite ratioWidth, ratioHeight := JsNumber.finite ratioHeight,
    canvas := ⟨JsNumber.finite 300, JsNumber.finite 150⟩, points := JsNumber.finite 100,
    x := JsNumber.finite 0, y := JsNumber.finite 0, maxX := JsNumber.finite 0,
    maxY := JsNumber.finite 0, scale := JsNumber.finite 0, height := JsNumber.finite 0,
    width := JsNumber.finite 0 }

end Ieee

/-! ## Lemmas: the key map as an array with holes -/

section KeyMapFacts

open MasterController

theorem getElem?_keyMapSet_same (keyMap : List (Option Int)) (key : Nat) (action : Int) :
    (keyMapSet keyMap key action)[key]? = some (some action) := by
  unfold keyMapSet
  by_cases h : key < keyMap.length
  · simp [h, List.getElem?_set]
  · have hle : keyMap.length ≤ key := not_lt.mp h
    have hlen : (keyMap ++ List.replicate (key - keyMap.length) none).length = key := by
      simp only [List.length_append, List.length_replicate]
      omega
    simp only [h, if_false]
    rw [List.getElem?_append_right (le_of_eq hlen), hlen, Nat.sub_self]
    rfl

theorem getElem?_keyMapSet_other (keyMap : List (Option Int)) (key other : Nat)
    (action : Int) (hne : other ≠ key) :
    (keyMapSet keyMap key action)[other]? = keyMap[other]? ∨
      ((keyMapSet keyMap key action)[other]? = some none ∧ keyMap[other]? = none) := by
  unfold keyMapSet
  by_cases h : key < keyMap.length
  · left
    simp only [h, if_true]
    rw [List.getElem?_set_ne (Ne.symm hne)]
  · have hle : keyMap.length ≤ key := not_lt.mp h
    simp only [h, if_false]
    by_cases ho : other < keyMap.length
    · left
      rw [List.append_assoc, List.getElem?_append_left ho]
    · have hole : keyMap.length ≤ other := not_lt.mp ho
      by_cases hk : other < key
      · right
        refine ⟨?_, List.getElem?_eq_none hole⟩
        have hin : other - keyMap.length < (List.replicate (key - keyMap.length)
            (none : Option Int)).length := by
          simp only [List.length_replicate]
          omega
        rw [List.append_assoc, List.getElem?_append_right hole,
          List.getElem?_append_left hin, List.getElem?_eq_getElem hin]
        simp only [List.getElem_replicate]
      · left
        have hbig : (keyMap ++ List.replicate (key - keyMap.length) none
            ++ [some action]).length ≤ other := by
          simp only [List.length_append, List.length_replicate, List.length_singleton]
          omega
        rw [List.getElem?_eq_none hole, List.getElem?_eq_none hbig]

theorem keyMapGet_keyMapSet_same (keyMap : List (Option Int)) (key : Nat) (action : Int) :
    keyMapGet (keyMapSet keyMap key action) key = some action := by
  unfold keyMapGet
  rw [getElem?_keyMapSet_same]

theorem keyMapGet_keyMapSet_other (keyMap : List (Option Int)) (key other : Nat)
    (action : Int) (hne : other ≠ key) :
    keyMapGet (keyMapSet keyMap key action) other = keyMapGet keyMap other := by
  unfold keyMapGet
  rcases getElem?_keyMapSet_other keyMap key other action hne with h | ⟨h1, h2⟩
  · rw [h]
  · rw [h1, h2]

theorem keyMapGet_eq_none_of_hasEntry_false (keyMap : List (Option Int)) (key : Nat)
    (h : hasEntry keyMap key = false) : keyMapGet keyMap key = none := by
  unfold hasEntry at h
  unfold keyMapGet
  cases hk : keyMap[key]? with
  | none => rfl
  | some v =>
    cases v with
    | none => rfl
    | some a =>
      rw [hk] at h
      exact Bool.noConfusion h

end KeyMapFacts

/-! ## Theorems: Ratiovision.resized -/

section ResizedFacts

variable (w : Window) (r : Ratiovision)

theorem resized_fields :
    (Ratiovision.resized w r).ratioWidth = r.ratioWidth ∧
    (Ratiovision.resized w r).ratioHeight = r.ratioHeight ∧
    (Ratiovision.resized w r).points = r.points ∧
    (Ratiovision.resized w r).width = w.innerWidth ∧
    (Ratiovision.resized w r).height = w.innerHeight ∧
    (Ratiovision.resized w r).maxX = Ratiovision.gridLength w r * r.ratioWidth ∧
    (Ratiovision.resized w r).maxY = Ratiovision.gridLength w r * r.ratioHeight ∧
    (Ratiovision.resized w r).scale = Ratiovision.gridLength w r / r.points ∧
    (Ratiovision.resized w r).y =
      (w.innerHeight - r.ratioHeight * Ratiovision.gridLength w r) / 2 ∧
    (Ratiovision.resized w r).x =
      (if w.innerWidth / r.ratioWidth * r.ratioHeight > w.innerHeight then
        (w.innerWidth - r.ratioWidth * Ratiovision.gridLength w r) / 2 else 0) := by
  unfold Ratiovision.resized Ratiovision.gridLength
  by_cases h : w.innerWidth / r.ratioWidth * r.ratioHeight > w.innerHeight
  · simp [h]
  · simp [h]

theorem gridLength_mul_ratioHeight_le (hh : 0 < r.ratioHeight) :
    Ratiovision.gridLength w r * r.ratioHeight ≤ w.innerHeight := by
  unfold Ratiovision.gridLength
  by_cases h : w.innerWidth / r.ratioWidth * r.ratioHeight > w.innerHeight
  · simp only [h, if_true]
    rw [div_mul_cancel₀ _ (ne_of_gt hh)]
  · simp only [h, if_false]
    exact not_lt.mp h

theorem gridLength_mul_ratioWidth_le (hw : 0 < r.ratioWidth) (hh : 0 < r.ratioHeight) :
    Ratiovision.gridLength w r * r.ratioWidth ≤ w.innerWidth := by
  unfold Ratiovision.gridLength
  by_cases h : w.innerWidth / r.ratioWidth * r.ratioHeight > w.innerHeight
  · simp only [h, if_true]
    have h1 : w.innerHeight / r.ratioHeight < w.innerWidth / r.ratioWidth := by
      rw [div_lt_iff₀ hh]
      exact h
    have h2 := (lt_div_iff₀ hw).mp h1
    exact le_of_lt h2
  · simp only [h, if_false]
    rw [div_mul_cancel₀ _ (ne_of_gt hw)]

theorem gridLength_eq_min (hh : 0 < r.ratioHeight) :
    Ratiovision.gridLength w r = Ratiovision.gridUnitLengthSpec w r := by
  unfold Ratiovision.gridLength Ratiovision.gridUnitLengthSpec
  by_cases h : w.innerWidth / r.ratioWidth * r.ratioHeight > w.innerHeight
  · simp only [h, if_true]
    have h1 : w.innerHeight / r.ratioHeight < w.innerWidth / r.ratioWidth := by
      rw [div_lt_iff₀ hh]
      exact h
    exact (min_eq_right (le_of_lt h1)).symm
  · simp only [h, if_false]
    have h1 : w.innerWidth / r.ratioWidth ≤ w.innerHeight / r.ratioHeight := by
      rw [le_div_iff₀ hh]
      exact not_lt.mp h
    exact (min_eq_left h1).symm

end ResizedFacts

theorem resized_fields_binary64 (w : Ieee.Window) (r : Ieee.Ratiovision) :
    (Ieee.Ratiovision.resized w r).ratioWidth = r.ratioWidth ∧
    (Ieee.Ratiovision.resized w r).ratioHeight = r.ratioHeight ∧
    (Ieee.Ratiovision.resized w r).points = r.points ∧
    (Ieee.Ratiovision.resized w r).width = w.innerWidth ∧
    (Ieee.Ratiovision.resized w r).height = w.innerHeight ∧
    (Ieee.Ratiovision.resized w r).canvas = ⟨w.innerWidth, w.innerHeight⟩ ∧
    (Ieee.Ratiovision.resized w r).maxX =
      JsNumber.mul (Ieee.Ratiovision.gridLength w r) r.ratioWidth ∧
    (Ieee.Ratiovision.resized w r).maxY =
      JsNumber.mul (Ieee.Ratiovision.gridLength w r) r.ratioHeight ∧
    (Ieee.Ratiovision.resized w r).scale =
      JsNumber.div (Ieee.Ratiovision.gridLength w r) r.points ∧
    (Ieee.Ratiovision.resized w r).y =
      JsNumber.div (JsNumber.sub w.innerHeight
        (JsNumber.mul r.ratioHeight (Ieee.Ratiovision.gridLength w r))) (JsNumber.finite 2) ∧
    (Ieee.Ratiovision.resized w r).x =
      (if JsNumber.gt (JsNumber.mul (JsNumber.div w.innerWidth r.ratioWidth) r.ratioHeight)
          w.innerHeight then
        JsNumber.div (JsNumber.sub w.innerWidth
          (JsNumber.mul r.ratioWidth (Ieee.Ratiovision.gridLength w r))) (JsNumber.finite 2)
      else JsNumber.finite 0) := by
  unfold Ieee.Ratiovision.resized Ieee.Ratiovision.gridLength
  cases h : JsNumber.gt (JsNumber.mul (JsNumber.div w.innerWidth r.ratioWidth) r.ratioHeight)
      w.innerHeight
  · simp [h]
  · simp [h]


/-- C1: for positive `ratioWidth` and `ratioHeight` (in particular positive integers) and
any display size, after `resized()` the grid keeps the aspect ratio,
`maxX / ratioWidth = maxY / ratioHeight`, and fits the display, `maxX ≤ innerWidth` and
`maxY ≤ innerHeight`. -/
theorem resized_keeps_ratio_and_fits (w : Window) (r : Ratiovision)
    (hw : 0 < r.ratioWidth) (hh : 0 < r.ratioHeight) :
    (Ratiovision.resized w r).maxX / (Ratiovision.resized w r).ratioWidth =
        (Ratiovision.resized w r).maxY / (Ratiovision.resized w r).ratioHeight ∧
      (Ratiovision.resized w r).maxX ≤ w.innerWidth ∧
      (Ratiovision.resized w r).maxY ≤ w.innerHeight := by
  obtain ⟨e1, e2, -, -, -, e6, e7, -, -, -⟩ := resized_fields w r
  rw [e1, e2, e6, e7]
  refine ⟨?_, gridLength_mul_ratioWidth_le w r hw hh, gridLength_mul_ratioHeight_le w r hh⟩
  rw [mul_div_cancel_right₀ _ (ne_of_gt hw), mul_div_cancel_right₀ _ (ne_of_gt hh)]

theorem resized_keeps_ratio_and_fits_witness :
    (0 : ℚ) < camera169.ratioWidth ∧ (0 : ℚ) < camera169.ratioHeight ∧
    ((Ratiovision.resized ⟨1000, 1000⟩ camera169).maxX /
          (Ratiovision.resized ⟨1000, 1000⟩ camera169).ratioWidth =
        (Ratiovision.resized ⟨1000, 1000⟩ camera169).maxY /
          (Ratiovision.resized ⟨1000, 1000⟩ camera169).ratioHeight ∧
      (Ratiovision.resized ⟨1000, 1000⟩ camera169).maxX ≤ (1000 : ℚ) ∧
      (Ratiovision.resized ⟨1000, 1000⟩ camera169).maxY ≤ (1000 : ℚ)) :=
  ⟨by norm_num [camera169], by norm_num [camera169],
    resized_keeps_ratio_and_fits ⟨1000, 1000⟩ camera169
      (by norm_num [camera169]) (by norm_num [camera169])⟩

/-- C2, amended, in exact arithmetic: for positive `ratioWidth` (in particular a positive
integer) and any display size, after `resized()` the grid is centred on both axes:
`2*x + maxX = innerWidth` and `2*y + maxY = innerHeight`, also on the branch that leaves
`x` at its reset value 0. -/
theorem resized_centred (w : Window) (r : Ratiovision) (hw : 0 < r.ratioWidth) :
    2 * (Ratiovision.resized w r).x + (Ratiovision.resized w r).maxX = w.innerWidth ∧
      2 * (Ratiovision.resized w r).y + (Ratiovision.resized w r).maxY = w.innerHeight ∧
      (Ratiovision.resized w r).x = (w.innerWidth - (Ratiovision.resized w r).maxX) / 2 ∧
      (Ratiovision.resized w r).y = (w.innerHeight - (Ratiovision.resized w r).maxY) / 2 := by
  obtain ⟨-, -, -, -, -, e6, e7, -, e9, e10⟩ := resized_fields w r
  have hx : 2 * (Ratiovision.resized w r).x + (Ratiovision.resized w r).maxX
      = w.innerWidth := by
    rw [e10, e6]
    by_cases h : w.innerWidth / r.ratioWidth * r.ratioHeight > w.innerHeight
    · simp only [h, if_true]
      ring
    · simp only [h, if_false]
      unfold Ratiovision.gridLength
      simp only [h, if_false]
      rw [div_mul_cancel₀ _ (ne_of_gt hw)]
      ring
  have hy : 2 * (Ratiovision.resized w r).y + (Ratiovision.resized w r).maxY
      = w.innerHeight := by
    rw [e9, e7]
    ring
  refine ⟨hx, hy, ?_, ?_⟩
  · linarith
  · linarith

theorem resized_centred_witness :
    (0 : ℚ) < camera169.ratioWidth ∧
    (2 * (Ratiovision.resized ⟨800, 1200⟩ camera169).x +
        (Ratiovision.resized ⟨800, 1200⟩ camera169).maxX = (800 : ℚ) ∧
      2 * (Ratiovision.resized ⟨800, 1200⟩ camera169).y +
        (Ratiovision.resized ⟨800, 1200⟩ camera169).maxY = (1200 : ℚ) ∧
      (Ratiovision.resized ⟨800, 1200⟩ camera169).x =
        ((800 : ℚ) - (Ratiovision.resized ⟨800, 1200⟩ camera169).maxX) / 2 ∧
      (Ratiovision.resized ⟨800, 1200⟩ camera169).y =
        ((1200 : ℚ) - (Ratiovision.resized ⟨800, 1200⟩ camera169).maxY) / 2) :=
  ⟨by norm_num [camera169], resized_centred ⟨800, 1200⟩ camera169 (by norm_num [camera169])⟩

/-- C3: for positive `ratioHeight` (in particular a positive integer) and any display
size, the branching computation of `resized()` agrees with the reference definition
`g = min(innerWidth/ratioWidth, innerHeight/ratioHeight)`: afterwards `maxX = g*ratioWidth`,
`maxY = g*ratioHeight` and `scale = g/points`. -/
theorem resized_refines_min (w : Window) (r : Ratiovision) (hh : 0 < r.ratioHeight) :
    (Ratiovision.resized w r).maxX = Ratiovision.gridUnitLengthSpec w r * r.ratioWidth ∧
      (Ratiovision.resized w r).maxY = Ratiovision.gridUnitLengthSpec w r * r.ratioHeight ∧
      (Ratiovision.resized w r).scale = Ratiovision.gridUnitLengthSpec w r / r.points := by
  obtain ⟨-, -, -, -, -, e6, e7, e8, -, -⟩ := resized_fields w r
  rw [e6, e7, e8, gridLength_eq_min w r hh]
  exact ⟨rfl, rfl, rfl⟩

theorem resized_refines_min_witness :
    (0 : ℚ) < camera169.ratioHeight ∧
    ((Ratiovision.resized ⟨1920, 400⟩ camera169).maxX =
        Ratiovision.gridUnitLengthSpec ⟨1920, 400⟩ camera169 * camera169.ratioWidth ∧
      (Ratiovision.resized ⟨1920, 400⟩ camera169).maxY =
        Ratiovision.gridUnitLengthSpec ⟨1920, 400⟩ camera169 * camera169.ratioHeight ∧
      (Ratiovision.resized ⟨1920, 400⟩ camera169).scale =
        Ratiovision.gridUnitLengthSpec ⟨1920, 400⟩ camera169 / camera169.points) :=
  ⟨by norm_num [camera169], resized_refines_min ⟨1920, 400⟩ camera169 (by norm_num [camera169])⟩

/-! ## Theorems: Ratiovision.constructor -/

/-- C4, counterexample: with the non-positive `ratioWidth = -16` on a 1920 by 1080
display the constructor raises nothing and returns a transform (with `maxY = -1080`);
it does so too for `ratioHeight = -9` and for `points = -100`. -/
theorem constructor_accepts_nonpositive :
    Ratiovision.constructor ⟨1920, 1080⟩ (-16) 9 (some ⟨300, 150⟩) 100 =
        .ok { ratioWidth := -16, ratioHeight := 9, canvas := ⟨1920, 1080⟩, points := 100,
              x := 0, y := 1080, maxX := 1920, maxY := -1080, scale := -6 / 5,
              height := 1080, width := 1920 } ∧
      (Ratiovision.constructor ⟨1920, 1080⟩ 16 (-9) (some ⟨300, 150⟩) 100).isOk = true ∧
      (Ratiovision.constructor ⟨1920, 1080⟩ 16 9 (some ⟨300, 150⟩) (-100)).isOk = true := by
  refine ⟨?_, rfl, rfl⟩
  simp only [Ratiovision.constructor, Ratiovision.resized]
  norm_num

/-- C4, amended: the constructor does not validate `ratioWidth`, `ratioHeight` or `points`.
For every value of the three, positive or not (in binary64 arithmetic also zero, infinite
or `NaN`), and every canvas it raises no error; its result is the transform that holds the
three values as given after one `resized()`, so `width`, `height` and the canvas size are
the display's. -/
theorem constructor_stores_arguments (w : Window) (ratioWidth ratioHeight points : ℚ)
    (canvas : Canvas) (wd : Ieee.Window) (ratioWidthD ratioHeightD pointsD : JsNumber)
    (canvasD : Ieee.Canvas) :
    (∃ r, Ratiovision.constructor w ratioWidth ratioHeight (some canvas) points = .ok r ∧
      r = Ratiovision.resized w
        { ratioWidth := ratioWidth, ratioHeight := ratioHeight, canvas := canvas,
          points := points, x := 0, y := 0, maxX := 0, maxY := 0, scale := 0,
          height := 0, width := 0 } ∧
      r.ratioWidth = ratioWidth ∧ r.ratioHeight = ratioHeight ∧ r.points = points ∧
      r.width = w.innerWidth ∧ r.height = w.innerHeight ∧
      r.canvas = ⟨w.innerWidth, w.innerHeight⟩) ∧
    (∃ r, Ieee.Ratiovision.constructor wd ratioWidthD ratioHeightD (some canvasD) pointsD
        = .ok r ∧
      r = Ieee.Ratiovision.resized wd
        { ratioWidth := ratioWidthD, ratioHeight := ratioHeightD, canvas := canvasD,
          points := pointsD, x := JsNumber.finite 0, y := JsNumber.finite 0,
          maxX := JsNumber.finite 0, maxY := JsNumber.finite 0,
          scale := JsNumber.finite 0, height := JsNumber.finite 0,
          width := JsNumber.finite 0 } ∧
      r.ratioWidth = ratioWidthD ∧ r.ratioHeight = ratioHeightD ∧ r.points = pointsD ∧
      r.width = wd.innerWidth ∧ r.height = wd.innerHeight ∧
      r.canvas = ⟨wd.innerWidth, wd.innerHeight⟩) := by
  constructor
  · refine ⟨_, rfl, rfl, ?_⟩
    obtain ⟨e1, e2, e3, e4, e5, -⟩ := resized_fields w
      { ratioWidth := ratioWidth, ratioHeight := ratioHeight, canvas := canvas,
        points := points, x := 0, y := 0, maxX := 0, maxY := 0, scale := 0,
        height := 0, width := 0 }
    refine ⟨e1, e2, e3, e4, e5, ?_⟩
    unfold Ratiovision.resized
    by_cases h : w.innerWidth / ratioWidth * ratioHeight > w.innerHeight
    · simp [h]
    · simp [h]
  · refine ⟨_, rfl, rfl, ?_⟩
    obtain ⟨e1, e2, e3, e4, e5, e6, -⟩ := resized_fields_binary64 wd
      { ratioWidth := ratioWidthD, ratioHeight := ratioHeightD, canvas := canvasD,
        points := pointsD, x := JsNumber.finite 0, y := JsNumber.finite 0,
        maxX := JsNumber.finite 0, maxY := JsNumber.finite 0,
        scale := JsNumber.finite 0, height := JsNumber.finite 0,
        width := JsNumber.finite 0 }
    exact ⟨e1, e2, e3, e4, e5, e6⟩

/-! ## Theorems: MasterController dispatch -/

/-- C5: with no object assigned (any controller whose `assignedObject` is `null`, the
freshly constructed controller, and any controller after `assignObject(null)`), for every
key and key map `doKeyDown(key)` and `doKeyUp(key)` each log exactly one message, call
neither callback, and return without raising. -/
theorem dispatch_without_target (mc : MasterController) (key : Nat) :
    (mc.assignedObject = none →
      (mc.doKeyDown key).trace = [Effect.consoleLog
          "MasterController needs an assigned object for doKeyDown(key) to work."] ∧
        (mc.doKeyDown key).result = .ok () ∧
        (mc.doKeyUp key).trace = [Effect.consoleLog
          "MasterController needs an assigned object for doKeyUp(key) to work."] ∧
        (mc.doKeyUp key).result = .ok ()) ∧
    ((MasterController.constructor.doKeyDown key).trace = [Effect.consoleLog
          "MasterController needs an assigned object for doKeyDown(key) to work."] ∧
        (MasterController.constructor.doKeyDown key).result = .ok () ∧
        (MasterController.constructor.doKeyUp key).trace = [Effect.consoleLog
          "MasterController needs an assigned object for doKeyUp(key) to work."] ∧
        (MasterController.constructor.doKeyUp key).result = .ok ()) ∧
    (((mc.assignObject none).doKeyDown key).trace = [Effect.consoleLog
          "MasterController needs an assigned object for doKeyDown(key) to work."] ∧
        ((mc.assignObject none).doKeyDown key).result = .ok () ∧
        ((mc.assignObject none).doKeyUp key).trace = [Effect.consoleLog
          "MasterController needs an assigned object for doKeyUp(key) to work."] ∧
        ((mc.assignObject none).doKeyUp key).result = .ok ()) := by
  refine ⟨?_, ⟨rfl, rfl, rfl, rfl⟩, ⟨rfl, rfl, rfl, rfl⟩⟩
  intro h
  simp only [MasterController.doKeyDown, MasterController.doKeyUp, h, and_self]

theorem dispatch_without_target_witness :
    gameController.assignedObject = none ∧
      (gameController.doKeyDown 87).trace = [Effect.consoleLog
          "MasterController needs an assigned object for doKeyDown(key) to work."] ∧
      (gameController.doKeyDown 87).result = .ok () ∧
      (gameController.doKeyUp 87).trace = [Effect.consoleLog
          "MasterController needs an assigned object for doKeyUp(key) to work."] ∧
      (gameController.doKeyUp 87).result = .ok () :=
  ⟨rfl, (dispatch_without_target gameController 87).1 rfl⟩

/-- C6: with an object assigned, for every key `doKeyDown(key)` makes exactly one call,
`doActionDown(keyMap[key])` on that object, and `doKeyUp(key)` exactly one call,
`doActionUp(keyMap[key])`; nothing is logged, and the dispatch returns or raises as the
callback does.  The argument is the action last assigned to the key, and it is `undefined`
when the key has no entry. -/
theorem dispatch_with_target (mc : MasterController) (target : Target) (key : Nat)
    (h : mc.assignedObject = some target) :
    (mc.doKeyDown key).trace =
        [Effect.doActionDown target.id (MasterController.keyMapGet mc.keyMap key)] ∧
      (mc.doKeyDown key).result =
        target.doActionDown (MasterController.keyMapGet mc.keyMap key) ∧
      (mc.doKeyUp key).trace =
        [Effect.doActionUp target.id (MasterController.keyMapGet mc.keyMap key)] ∧
      (mc.doKeyUp key).result =
        target.doActionUp (MasterController.keyMapGet mc.keyMap key) ∧
      (∀ action : Int,
        ((mc.assignKey key action).doKeyDown key).trace =
            [Effect.doActionDown target.id (some action)] ∧
          ((mc.assignKey key action).doKeyUp key).trace =
            [Effect.doActionUp target.id (some action)]) ∧
      (MasterController.hasEntry mc.keyMap key = false →
        (mc.doKeyDown key).trace = [Effect.doActionDown target.id none] ∧
          (mc.doKeyUp key).trace = [Effect.doActionUp target.id none]) := by
  have hset : ∀ action : Int,
      MasterController.keyMapGet (MasterController.keyMapSet mc.keyMap key action) key
        = some action := fun action => keyMapGet_keyMapSet_same mc.keyMap key action
  refine ⟨?_, ?_, ?_, ?_, ?_, ?_⟩
  · simp only [MasterController.doKeyDown, h]
  · simp only [MasterController.doKeyDown, h]
  · simp only [MasterController.doKeyUp, h]
  · simp only [MasterController.doKeyUp, h]
  · intro action
    simp only [MasterController.doKeyDown, MasterController.doKeyUp,
      MasterController.assignKey, h, hset action, and_self]
  · intro hno
    have hget := keyMapGet_eq_none_of_hasEntry_false mc.keyMap key hno
    simp only [MasterController.doKeyDown, MasterController.doKeyUp, h, hget, and_self]

theorem dispatch_with_target_witness :
    (gameController.assignObject (some (quietTarget 1))).assignedObject
        = some (quietTarget 1) ∧
      ((gameController.assignObject (some (quietTarget 1))).doKeyDown 65).trace =
        [Effect.doActionDown 1 (some 1)] ∧
      ((gameController.assignObject (some (quietTarget 1))).doKeyUp 66).trace =
        [Effect.doActionUp 1 none] :=
  ⟨rfl,
    (dispatch_with_target (gameController.assignObject (some (quietTarget 1)))
      (quietTarget 1) 65 rfl).1,
    (dispatch_with_target (gameController.assignObject (some (quietTarget 1)))
      (quietTarget 1) 66 rfl).2.2.1⟩

/-- C7, counterexample: on the game controller with an object assigned, key 66 has no
entry, yet `doKeyDown(66)` and `doKeyUp(66)` log nothing and call the callback with
`undefined`; when that callback raises on `undefined`, so does the dispatch. -/
theorem unmapped_key_reaches_target :
    MasterController.hasEntry (gameController.assignObject (some (quietTarget 1))).keyMap 66
        = false ∧
      ((gameController.assignObject (some (quietTarget 1))).doKeyDown 66).trace =
        [Effect.doActionDown 1 none] ∧
      ((gameController.assignObject (some (quietTarget 1))).doKeyUp 66).trace =
        [Effect.doActionUp 1 none] ∧
      ((gameController.assignObject (some (strictTarget 2))).doKeyDown 66).result =
        .error (.thrown "unknown action") := by
  exact ⟨rfl, rfl, rfl, rfl⟩

/-- C7, amended: for every controller and every key with no entry in `keyMap`: when no
object is assigned, `doKeyDown(key)` and `doKeyUp(key)` log one diagnostic, call nothing
and do not raise; when an object is assigned they log nothing and call its callback once
with `undefined`, returning or raising as that callback does. -/
theorem dispatch_unmapped_key (mc : MasterController) (key : Nat)
    (hno : MasterController.hasEntry mc.keyMap key = false) :
    (mc.assignedObject = none →
      (mc.doKeyDown key).trace = [Effect.consoleLog
          "MasterController needs an assigned object for doKeyDown(key) to work."] ∧
        (mc.doKeyDown key).result = .ok () ∧
        (mc.doKeyUp key).trace = [Effect.consoleLog
          "MasterController needs an assigned object for doKeyUp(key) to work."] ∧
        (mc.doKeyUp key).result = .ok ()) ∧
    (∀ target : Target, mc.assignedObject = some target →
      (mc.doKeyDown key).trace = [Effect.doActionDown target.id none] ∧
        (mc.doKeyDown key).result = target.doActionDown none ∧
        (mc.doKeyUp key).trace = [Effect.doActionUp target.id none] ∧
        (mc.doKeyUp key).result = target.doActionUp none) := by
  have hget := keyMapGet_eq_none_of_hasEntry_false mc.keyMap key hno
  constructor
  · intro h
    simp only [MasterController.doKeyDown, MasterController.doKeyUp, h, and_self]
  · intro target h
    simp only [MasterController.doKeyDown, MasterController.doKeyUp, h, hget, and_self]

theorem dispatch_unmapped_key_witness :
    MasterController.hasEntry gameController.keyMap 66 = false ∧
      gameController.assignedObject = none ∧
      (gameController.doKeyDown 66).trace = [Effect.consoleLog
          "MasterController needs an assigned object for doKeyDown(key) to work."] ∧
      (gameController.doKeyDown 66).result = .ok () ∧
      (gameController.doKeyUp 66).trace = [Effect.consoleLog
          "MasterController needs an assigned object for doKeyUp(key) to work."] ∧
      (gameController.doKeyUp 66).result = .ok () :=
  ⟨rfl, rfl, (dispatch_unmapped_key gameController 66 rfl).1 rfl⟩

/-! ## Theorems: MasterController.assignKey -/

/-- C10: after `assignKey(key, action)` the lookup of `key` gives `action` (whether `key`
had an entry or not), the lookup of every other key is as before, the assigned object is
as before, and assigning the same action to a second key leaves both keys on that
action. -/
theorem assignKey_frame (mc : MasterController) (key : Nat) (action : Int) :
    MasterController.keyMapGet (mc.assignKey key action).keyMap key = some action ∧
      MasterController.hasEntry (mc.assignKey key action).keyMap key = true ∧
      (∀ other : Nat, other ≠ key →
        MasterController.keyMapGet (mc.assignKey key action).keyMap other =
          MasterController.keyMapGet mc.keyMap other) ∧
      (mc.assignKey key action).assignedObject = mc.assignedObject ∧
      (∀ second : Nat, second ≠ key →
        MasterController.keyMapGet ((mc.assignKey key action).assignKey second action).keyMap
            key = some action ∧
          MasterController.keyMapGet ((mc.assignKey key action).assignKey second action).keyMap
            second = some action) := by
  refine ⟨keyMapGet_keyMapSet_same mc.keyMap key action, ?_,
    fun other hne => keyMapGet_keyMapSet_other mc.keyMap key other action hne, rfl, ?_⟩
  · simp only [MasterController.assignKey, MasterController.hasEntry,
      getElem?_keyMapSet_same]
  · intro second hne
    constructor
    · simp only [MasterController.assignKey]
      rw [keyMapGet_keyMapSet_other _ second key action (Ne.symm hne)]
      exact keyMapGet_keyMapSet_same mc.keyMap key action
    · exact keyMapGet_keyMapSet_same _ second action

theorem assignKey_frame_witness :
    (75 : Nat) ≠ 74 ∧
      MasterController.keyMapGet (gameController.assignKey 74 5).keyMap 75 =
        MasterController.keyMapGet gameController.keyMap 75 ∧
      (200 : Nat) ≠ 74 ∧
      MasterController.keyMapGet ((gameController.assignKey 74 5).assignKey 200 5).keyMap 74
        = some 5 ∧
      MasterController.keyMapGet ((gameController.assignKey 74 5).assignKey 200 5).keyMap 200
        = some 5 :=
  ⟨by decide, (assignKey_frame gameController 74 5).2.2.1 75 (by decide), by decide,
    (assignKey_frame gameController 74 5).2.2.2.2 200 (by decide)⟩

/-! ## Theorems: Ratiovision.drawLine -/

/-- C9: `drawLine(startX, startY, endX, endY, style)` issues one path, begun once and
stroked once with the given style, from the device point
`(x + startX*scale, y + startY*scale)` to `(x + endX*scale, y + endY*scale)`; a logical
endpoint `(0, 0)` is the device point `(x, y)`; and no field of the transform changes. -/
theorem drawLine_device_path (r : Ratiovision) (startX startY endX endY : ℚ)
    (style : String) :
    (r.drawLine startX startY endX endY style).2 =
        [CtxOp.beginPath,
         CtxOp.moveTo (r.x + startX * r.scale) (r.y + startY * r.scale),
         CtxOp.setStrokeStyle style,
         CtxOp.lineTo (r.x + endX * r.scale) (r.y + endY * r.scale),
         CtxOp.stroke] ∧
      (r.drawLine 0 0 endX endY style).2 =
        [CtxOp.beginPath,
         CtxOp.moveTo r.x r.y,
         CtxOp.setStrokeStyle style,
         CtxOp.lineTo (r.x + endX * r.scale) (r.y + endY * r.scale),
         CtxOp.stroke] ∧
      (r.drawLine startX startY 0 0 style).2 =
        [CtxOp.beginPath,
         CtxOp.moveTo (r.x + startX * r.scale) (r.y + startY * r.scale),
         CtxOp.setStrokeStyle style,
         CtxOp.lineTo r.x r.y,
         CtxOp.stroke] ∧
      (r.drawLine startX startY endX endY style).1 = r := by
  refine ⟨rfl, ?_, ?_, rfl⟩
  · simp only [Ratiovision.drawLine, zero_mul, add_zero]
  · simp only [Ratiovision.drawLine, zero_mul, add_zero]

/-! ## Theorems: Ratiovision.drawGrid -/

section DrawGridFacts

variable (r : Ratiovision) (rw rh p : ℕ)

theorem drawGridVertical_from (hp : 0 < p) (hrw : r.ratioWidth = rw) (hpt : r.points = p) :
    ∀ (m k fuel : ℕ), k + m = rw + 1 → m + 1 ≤ fuel →
      Ratiovision.drawGridVertical r fuel ((k : ℚ) * r.points) =
        some ((List.range' k m).map (verticalLine r)) := by
  have hpq : (0 : ℚ) < (p : ℚ) := by exact_mod_cast hp
  intro m
  induction m with
  | zero =>
    intro k fuel hk hf
    obtain ⟨f, rfl⟩ : ∃ f, fuel = f + 1 := ⟨fuel - 1, by omega⟩
    have hkq : (k : ℚ) = (rw : ℚ) + 1 := by
      have : k = rw + 1 := by omega
      rw [this]
      push_cast
      ring
    have hcond : ¬ ((k : ℚ) * r.points ≤ r.points * r.ratioWidth) := by
      rw [hpt, hrw, hkq]
      intro hle
      nlinarith
    simp only [Ratiovision.drawGridVertical, hcond, if_false, List.range'_zero, List.map_nil]
  | succ m ih =>
    intro k fuel hk hf
    obtain ⟨f, rfl⟩ : ∃ f, fuel = f + 1 := ⟨fuel - 1, by omega⟩
    have hkle : (k : ℚ) ≤ (rw : ℚ) := by
      have : k ≤ rw := by omega
      exact_mod_cast this
    have hcond : (k : ℚ) * r.points ≤ r.points * r.ratioWidth := by
      rw [hpt, hrw]
      nlinarith
    have hnext : (k : ℚ) * r.points + r.points = ((k + 1 : ℕ) : ℚ) * r.points := by
      push_cast
      ring
    simp only [Ratiovision.drawGridVertical, hcond, if_true]
    rw [hnext, ih (k + 1) f (by omega) (by omega)]
    simp only [Option.map_some', List.range'_succ, List.map_cons, verticalLine]

theorem drawGridHorizontal_from (hp : 0 < p) (hrh : r.ratioHeight = rh)
    (hpt : r.points = p) :
    ∀ (m k fuel : ℕ), k + m = rh + 1 → m + 1 ≤ fuel →
      Ratiovision.drawGridHorizontal r fuel ((k : ℚ) * r.points) =
        some ((List.range' k m).map (horizontalLine r)) := by
  have hpq : (0 : ℚ) < (p : ℚ) := by exact_mod_cast hp
  intro m
  induction m with
  | zero =>
    intro k fuel hk hf
    obtain ⟨f, rfl⟩ : ∃ f, fuel = f + 1 := ⟨fuel - 1, by omega⟩
    have hkq : (k : ℚ) = (rh : ℚ) + 1 := by
      have : k = rh + 1 := by omega
      rw [this]
      push_cast
      ring
    have hcond : ¬ ((k : ℚ) * r.points ≤ r.points * r.ratioHeight) := by
      rw [hpt, hrh, hkq]
      intro hle
      nlinarith
    simp only [Ratiovision.drawGridHorizontal, hcond, if_false, List.range'_zero,
      List.map_nil]
  | succ m ih =>
    intro k fuel hk hf
    obtain ⟨f, rfl⟩ : ∃ f, fuel = f + 1 := ⟨fuel - 1, by omega⟩
    have hkle : (k : ℚ) ≤ (rh : ℚ) := by
      have : k ≤ rh := by omega
      exact_mod_cast this
    have hcond : (k : ℚ) * r.points ≤ r.points * r.ratioHeight := by
      rw [hpt, hrh]
      nlinarith
    have hnext : (k : ℚ) * r.points + r.points = ((k + 1 : ℕ) : ℚ) * r.points := by
      push_cast
      ring
    simp only [Ratiovision.drawGridHorizontal, hcond, if_true]
    rw [hnext, ih (k + 1) f (by omega) (by omega)]
    simp only [Option.map_some', List.range'_succ, List.map_cons, horizontalLine]

theorem drawGridCalls_eq (hp : 0 < p) (hrw : r.ratioWidth = rw) (hrh : r.ratioHeight = rh)
    (hpt : r.points = p) (fuel : ℕ) (hfw : rw + 2 ≤ fuel) (hfh : rh + 2 ≤ fuel) :
    Ratiovision.drawGridCalls fuel r =
      some ((List.range' 0 (rw + 1)).map (verticalLine r) ++
        (List.range' 0 (rh + 1)).map (horizontalLine r)) := by
  have hv := drawGridVertical_from r rw p hp hrw hpt (rw + 1) 0 fuel (by omega) (by omega)
  have hh := drawGridHorizontal_from r rh p hp hrh hpt (rh + 1) 0 fuel (by omega) (by omega)
  simp only [Nat.cast_zero, zero_mul] at hv hh
  simp only [Ratiovision.drawGridCalls, hv, hh]

end DrawGridFacts

/-- C8: for positive integers `ratioWidth`, `ratioHeight` and `points`, and whatever the
other fields of the transform (so whatever the display size), `drawGrid()` terminates
(any fuel from `max ratioWidth ratioHeight + 2` on is enough) and its `drawLine` calls
are `ratioWidth + 1` vertical lines followed by `ratioHeight + 1` horizontal lines,
`ratioWidth + ratioHeight + 2` calls in all. -/
theorem drawGrid_line_counts (r : Ratiovision) (rw rh p fuel : ℕ)
    (hrwpos : 0 < rw) (hrhpos : 0 < rh) (hp : 0 < p)
    (hrw : r.ratioWidth = rw) (hrh : r.ratioHeight = rh) (hpt : r.points = p)
    (hfw : rw + 2 ≤ fuel) (hfh : rh + 2 ≤ fuel) :
    ∃ vs hs : List LineArgs,
      Ratiovision.drawGridCalls fuel r = some (vs ++ hs) ∧
      vs.length = rw + 1 ∧ hs.length = rh + 1 ∧ (vs ++ hs).length = rw + rh + 2 ∧
      (∀ c ∈ vs, c.startX = c.endX ∧ c.startY ≠ c.endY) ∧
      (∀ c ∈ hs, c.startY = c.endY ∧ c.startX ≠ c.endX) := by
  have hpq : (0 : ℚ) < (p : ℚ) := by exact_mod_cast hp
  have hwq : (0 : ℚ) < (rw : ℚ) := by exact_mod_cast hrwpos
  have hhq : (0 : ℚ) < (rh : ℚ) := by exact_mod_cast hrhpos
  refine ⟨(List.range' 0 (rw + 1)).map (verticalLine r),
    (List.range' 0 (rh + 1)).map (horizontalLine r),
    drawGridCalls_eq r rw rh p hp hrw hrh hpt fuel hfw hfh, ?_, ?_, ?_, ?_, ?_⟩
  · simp only [List.length_map, List.length_range']
  · simp only [List.length_map, List.length_range']
  · simp only [List.length_append, List.length_map, List.length_range']
    omega
  · intro c hc
    obtain ⟨j, -, rfl⟩ := List.mem_map.mp hc
    refine ⟨rfl, ?_⟩
    simp only [verticalLine, hrh, hpt]
    exact ne_of_lt (mul_pos hpq hhq)
  · intro c hc
    obtain ⟨j, -, rfl⟩ := List.mem_map.mp hc
    refine ⟨rfl, ?_⟩
    simp only [horizontalLine, hrw, hpt]
    exact ne_of_lt (mul_pos hpq hwq)

theorem drawGrid_line_counts_witness :
    ∃ vs hs : List LineArgs,
      Ratiovision.drawGridCalls 18 camera169 = some (vs ++ hs) ∧
      vs.length = 16 + 1 ∧ hs.length = 9 + 1 ∧ (vs ++ hs).length = 16 + 9 + 2 ∧
      (∀ c ∈ vs, c.startX = c.endX ∧ c.startY ≠ c.endY) ∧
      (∀ c ∈ hs, c.startY = c.endY ∧ c.startX ≠ c.endX) :=
  drawGrid_line_counts camera169 16 9 100 18 (by decide) (by decide) (by decide)
    (by norm_num [camera169]) (by norm_num [camera169]) (by norm_num [camera169])
    (by decide) (by decide)

/-! ## Theorems: the grid unit length and the offsets -/

section GridLengthFacts

variable (w : Window) (r : Ratiovision)

theorem gridLength_nonneg (hw : 0 < r.ratioWidth) (hh : 0 < r.ratioHeight)
    (hW : 0 ≤ w.innerWidth) (hH : 0 ≤ w.innerHeight) :
    0 ≤ Ratiovision.gridLength w r := by
  unfold Ratiovision.gridLength
  by_cases h : w.innerWidth / r.ratioWidth * r.ratioHeight > w.innerHeight
  · simp only [h, if_true]
    exact div_nonneg hH (le_of_lt hh)
  · simp only [h, if_false]
    exact div_nonneg hW (le_of_lt hw)

theorem gridLength_pos (hw : 0 < r.ratioWidth) (hh : 0 < r.ratioHeight)
    (hW : 0 < w.innerWidth) (hH : 0 < w.innerHeight) :
    0 < Ratiovision.gridLength w r := by
  unfold Ratiovision.gridLength
  by_cases h : w.innerWidth / r.ratioWidth * r.ratioHeight > w.innerHeight
  · simp only [h, if_true]
    exact div_pos hH hh
  · simp only [h, if_false]
    exact div_pos hW hw

theorem gridLength_eq_zero (hw : 0 < r.ratioWidth) (hh : 0 < r.ratioHeight)
    (hW : 0 ≤ w.innerWidth) (hH : 0 ≤ w.innerHeight)
    (hz : w.innerWidth = 0 ∨ w.innerHeight = 0) :
    Ratiovision.gridLength w r = 0 := by
  have hnn := gridLength_nonneg w r hw hh hW hH
  rcases hz with hz | hz
  · have hle := gridLength_mul_ratioWidth_le w r hw hh
    rw [hz] at hle
    nlinarith
  · have hle := gridLength_mul_ratioHeight_le w r hh
    rw [hz] at hle
    nlinarith

end GridLengthFacts

/-- C11: a 16:9 camera built with the default `points` (100) has, after `resized()` on a
1920 by 1080 display, `maxX = 1920`, `maxY = 1080`, `x = 0`, `y = 0`; and after `resized()`
on a 1000 by 1000 display, grid unit length 62.5, `maxX = 1000`, `maxY = 562.5`, `x = 0`,
`y = 218.75` and `scale = 0.625`. -/
theorem camera_16_9_examples (w0 : Window) (canvas : Canvas) :
    ∃ r, Ratiovision.constructor w0 16 9 (some canvas) = .ok r ∧ r.points = 100 ∧
      (Ratiovision.resized ⟨1920, 1080⟩ r).maxX = 1920 ∧
      (Ratiovision.resized ⟨1920, 1080⟩ r).maxY = 1080 ∧
      (Ratiovision.resized ⟨1920, 1080⟩ r).x = 0 ∧
      (Ratiovision.resized ⟨1920, 1080⟩ r).y = 0 ∧
      Ratiovision.gridLength ⟨1000, 1000⟩ r = 62.5 ∧
      (Ratiovision.resized ⟨1000, 1000⟩ r).maxX = 1000 ∧
      (Ratiovision.resized ⟨1000, 1000⟩ r).maxY = 562.5 ∧
      (Ratiovision.resized ⟨1000, 1000⟩ r).x = 0 ∧
      (Ratiovision.resized ⟨1000, 1000⟩ r).y = 218.75 ∧
      (Ratiovision.resized ⟨1000, 1000⟩ r).scale = 0.625 := by
  refine ⟨_, rfl, ?_⟩
  obtain ⟨e1, e2, e3, -⟩ := resized_fields w0
    { ratioWidth := 16, ratioHeight := 9, canvas := canvas,
      points := 100, x := 0, y := 0, maxX := 0, maxY := 0, scale := 0,
      height := 0, width := 0 }
  have h1 : (Ratiovision.resized w0
    { ratioWidth := 16, ratioHeight := 9, canvas := canvas,
      points := 100, x := 0, y := 0, maxX := 0, maxY := 0, scale := 0,
      height := 0, width := 0 }).ratioWidth = 16 := e1
  have h2 : (Ratiovision.resized w0
    { ratioWidth := 16, ratioHeight := 9, canvas := canvas,
      points := 100, x := 0, y := 0, maxX := 0, maxY := 0, scale := 0,
      height := 0, width := 0 }).ratioHeight = 9 := e2
  have h3 : (Ratiovision.resized w0
    { ratioWidth := 16, ratioHeight := 9, canvas := canvas,
      points := 100, x := 0, y := 0, maxX := 0, maxY := 0, scale := 0,
      height := 0, width := 0 }).points = 100 := e3
  clear e1 e2 e3
  generalize Ratiovision.resized w0
    { ratioWidth := 16, ratioHeight := 9, canvas := canvas,
      points := 100, x := 0, y := 0, maxX := 0, maxY := 0, scale := 0,
      height := 0, width := 0 } = q at h1 h2 h3 ⊢
  obtain ⟨-, -, -, -, -, a6, a7, -, a9, a10⟩ := resized_fields ⟨1920, 1080⟩ q
  obtain ⟨-, -, -, -, -, b6, b7, b8, b9, b10⟩ := resized_fields ⟨1000, 1000⟩ q
  have ga : Ratiovision.gridLength ⟨1920, 1080⟩ q = 120 := by
    simp only [Ratiovision.gridLength, h1, h2]
    norm_num
  have gb : Ratiovision.gridLength ⟨1000, 1000⟩ q = 62.5 := by
    simp only [Ratiovision.gridLength, h1, h2]
    norm_num
  refine ⟨h3, ?_, ?_, ?_, ?_, gb, ?_, ?_, ?_, ?_, ?_⟩
  · rw [a6, ga, h1]; norm_num
  · rw [a7, ga, h2]; norm_num
  · rw [a10, h1, h2]; norm_num
  · rw [a9, ga, h2]; norm_num
  · rw [b6, gb, h1]; norm_num
  · rw [b7, gb, h2]; norm_num
  · rw [b10, h1, h2]; norm_num
  · rw [b9, gb, h2]; norm_num
  · rw [b8, gb, h3]; norm_num

/-- C12, amended, in exact arithmetic: for positive `ratioWidth`, `ratioHeight` and
`points` (in particular positive integers) and any display size, after construction, after
`resized()` and after any further `resized()`, `scale = maxX / (ratioWidth * points)` and
`scale = maxY / (ratioHeight * points)`. -/
theorem scale_is_derived (w w2 : Window) (r : Ratiovision) (canvas : Canvas)
    (hw : 0 < r.ratioWidth) (hh : 0 < r.ratioHeight) (hp : 0 < r.points) :
    ((Ratiovision.resized w r).scale =
        (Ratiovision.resized w r).maxX /
          ((Ratiovision.resized w r).ratioWidth * (Ratiovision.resized w r).points) ∧
      (Ratiovision.resized w r).scale =
        (Ratiovision.resized w r).maxY /
          ((Ratiovision.resized w r).ratioHeight * (Ratiovision.resized w r).points)) ∧
    ((Ratiovision.resized w2 (Ratiovision.resized w r)).scale =
        (Ratiovision.resized w2 (Ratiovision.resized w r)).maxX /
          ((Ratiovision.resized w2 (Ratiovision.resized w r)).ratioWidth *
            (Ratiovision.resized w2 (Ratiovision.resized w r)).points) ∧
      (Ratiovision.resized w2 (Ratiovision.resized w r)).scale =
        (Ratiovision.resized w2 (Ratiovision.resized w r)).maxY /
          ((Ratiovision.resized w2 (Ratiovision.resized w r)).ratioHeight *
            (Ratiovision.resized w2 (Ratiovision.resized w r)).points)) ∧
    (∃ built, Ratiovision.constructor w r.ratioWidth r.ratioHeight (some canvas) r.points
        = .ok built ∧
      built.scale = built.maxX / (built.ratioWidth * built.points) ∧
      built.scale = built.maxY / (built.ratioHeight * built.points)) := by
  have key : ∀ (v : Window) (q : Ratiovision), 0 < q.ratioWidth → 0 < q.ratioHeight →
      0 < q.points →
      (Ratiovision.resized v q).scale =
          (Ratiovision.resized v q).maxX /
            ((Ratiovision.resized v q).ratioWidth * (Ratiovision.resized v q).points) ∧
        (Ratiovision.resized v q).scale =
          (Ratiovision.resized v q).maxY /
            ((Ratiovision.resized v q).ratioHeight * (Ratiovision.resized v q).points) := by
    intro v q hqw hqh hqp
    obtain ⟨e1, e2, e3, -, -, e6, e7, e8, -, -⟩ := resized_fields v q
    rw [e1, e2, e3, e6, e7, e8]
    have hw0 := ne_of_gt hqw
    have hh0 := ne_of_gt hqh
    have hp0 := ne_of_gt hqp
    constructor
    · field_simp
      ring
    · field_simp
      ring
  obtain ⟨e1, e2, e3, -⟩ := resized_fields w r
  refine ⟨key w r hw hh hp, key w2 _ (by rw [e1]; exact hw) (by rw [e2]; exact hh)
    (by rw [e3]; exact hp), _, rfl, ?_⟩
  exact key w _ hw hh hp

theorem scale_is_derived_witness :
    (Ratiovision.resized ⟨1000, 1000⟩ camera169).scale =
        (Ratiovision.resized ⟨1000, 1000⟩ camera169).maxX /
          ((Ratiovision.resized ⟨1000, 1000⟩ camera169).ratioWidth *
            (Ratiovision.resized ⟨1000, 1000⟩ camera169).points) ∧
      (Ratiovision.resized ⟨1000, 1000⟩ camera169).scale =
        (Ratiovision.resized ⟨1000, 1000⟩ camera169).maxY /
          ((Ratiovision.resized ⟨1000, 1000⟩ camera169).ratioHeight *
            (Ratiovision.resized ⟨1000, 1000⟩ camera169).points) :=
  (scale_is_derived ⟨1000, 1000⟩ ⟨640, 480⟩ camera169 ⟨300, 150⟩ (by norm_num [camera169])
    (by norm_num [camera169]) (by norm_num [camera169])).1

/-- C13: for positive `ratioWidth` and `ratioHeight` and a non-negative display size of
which the width or the height is 0, `resized()` (which has no failing path) gives the
degenerate grid `maxX = 0`, `maxY = 0`, `scale = 0`, with `x = innerWidth / 2` and
`y = innerHeight / 2`. -/
theorem resized_zero_display (w : Window) (r : Ratiovision)
    (hw : 0 < r.ratioWidth) (hh : 0 < r.ratioHeight)
    (hW : 0 ≤ w.innerWidth) (hH : 0 ≤ w.innerHeight)
    (hz : w.innerWidth = 0 ∨ w.innerHeight = 0) :
    (Ratiovision.resized w r).maxX = 0 ∧ (Ratiovision.resized w r).maxY = 0 ∧
      (Ratiovision.resized w r).scale = 0 ∧
      (Ratiovision.resized w r).x = w.innerWidth / 2 ∧
      (Ratiovision.resized w r).y = w.innerHeight / 2 := by
  have hg := gridLength_eq_zero w r hw hh hW hH hz
  obtain ⟨-, -, -, -, -, e6, e7, e8, e9, e10⟩ := resized_fields w r
  rw [hg] at e6 e7 e8 e9 e10
  rw [zero_mul] at e6 e7
  rw [zero_div] at e8
  rw [mul_zero, sub_zero] at e9 e10
  refine ⟨e6, e7, e8, ?_, e9⟩
  rw [e10]
  by_cases h : w.innerWidth / r.ratioWidth * r.ratioHeight > w.innerHeight
  · simp only [h, if_true]
  · simp only [h, if_false]
    have hg2 : Ratiovision.gridLength w r = w.innerWidth / r.ratioWidth := by
      unfold Ratiovision.gridLength
      simp only [h, if_false]
    rw [hg] at hg2
    rcases div_eq_zero_iff.mp hg2.symm with h0 | h0
    · rw [h0, zero_div]
    · exact absurd h0 (ne_of_gt hw)

theorem resized_zero_display_witness :
    (Ratiovision.resized ⟨800, 0⟩ camera169).maxX = 0 ∧
      (Ratiovision.resized ⟨800, 0⟩ camera169).maxY = 0 ∧
      (Ratiovision.resized ⟨800, 0⟩ camera169).scale = 0 ∧
      (Ratiovision.resized ⟨800, 0⟩ camera169).x = (800 : ℚ) / 2 ∧
      (Ratiovision.resized ⟨800, 0⟩ camera169).y = (0 : ℚ) / 2 :=
  resized_zero_display ⟨800, 0⟩ camera169 (by norm_num [camera169]) (by norm_num [camera169])
    (by norm_num) (by norm_num) (Or.inr rfl)

/-- C14, amended, in exact arithmetic: after `resized()` the cross-multiplied form
`maxX * ratioHeight = maxY * ratioWidth` holds for every display size, a zero dimension
included; and for positive `ratioWidth`, `ratioHeight` and a display whose width and
height are both positive, `maxY` is positive and
`maxX / maxY = ratioWidth / ratioHeight`. -/
theorem resized_quotient_on_positive_display (w : Window) (r : Ratiovision) :
    (Ratiovision.resized w r).maxX * (Ratiovision.resized w r).ratioHeight =
        (Ratiovision.resized w r).maxY * (Ratiovision.resized w r).ratioWidth ∧
      (0 < r.ratioWidth → 0 < r.ratioHeight → 0 < w.innerWidth → 0 < w.innerHeight →
        0 < (Ratiovision.resized w r).maxY ∧
          (Ratiovision.resized w r).maxX / (Ratiovision.resized w r).maxY =
            (Ratiovision.resized w r).ratioWidth /
              (Ratiovision.resized w r).ratioHeight) := by
  obtain ⟨e1, e2, -, -, -, e6, e7, -, -, -⟩ := resized_fields w r
  rw [e1, e2, e6, e7]
  refine ⟨by ring, ?_⟩
  intro hw hh hW hH
  have hg := gridLength_pos w r hw hh hW hH
  refine ⟨mul_pos hg hh, ?_⟩
  rw [mul_div_mul_left _ _ (ne_of_gt hg)]

theorem resized_quotient_on_positive_display_witness :
    0 < (Ratiovision.resized ⟨1000, 1000⟩ camera169).maxY ∧
      (Ratiovision.resized ⟨1000, 1000⟩ camera169).maxX /
          (Ratiovision.resized ⟨1000, 1000⟩ camera169).maxY =
        (Ratiovision.resized ⟨1000, 1000⟩ camera169).ratioWidth /
          (Ratiovision.resized ⟨1000, 1000⟩ camera169).ratioHeight :=
  (resized_quotient_on_positive_display ⟨1000, 1000⟩ camera169).2 (by norm_num [camera169])
    (by norm_num [camera169]) (by norm_num) (by norm_num)

/-- C17, amended, in exact arithmetic: for positive `ratioWidth` and `ratioHeight` and any
display size, after `resized()` both offsets are non-negative, at least one of them is 0,
and `x` is positive exactly when `innerWidth / ratioWidth * ratioHeight > innerHeight`. -/
theorem resized_letterbox_one_axis (w : Window) (r : Ratiovision)
    (hw : 0 < r.ratioWidth) (hh : 0 < r.ratioHeight) :
    0 ≤ (Ratiovision.resized w r).x ∧ 0 ≤ (Ratiovision.resized w r).y ∧
      ((Ratiovision.resized w r).x = 0 ∨ (Ratiovision.resized w r).y = 0) ∧
      (0 < (Ratiovision.resized w r).x ↔
        w.innerWidth / r.ratioWidth * r.ratioHeight > w.innerHeight) := by
  obtain ⟨-, -, -, -, -, -, -, -, e9, e10⟩ := resized_fields w r
  have hle := gridLength_mul_ratioHeight_le w r hh
  have hy : 0 ≤ (Ratiovision.resized w r).y := by
    rw [e9]
    linarith
  by_cases h : w.innerWidth / r.ratioWidth * r.ratioHeight > w.innerHeight
  · have hg : Ratiovision.gridLength w r = w.innerHeight / r.ratioHeight := by
      unfold Ratiovision.gridLength
      simp only [h, if_true]
    have h1 : w.innerHeight / r.ratioHeight < w.innerWidth / r.ratioWidth := by
      rw [div_lt_iff₀ hh]
      exact h
    have h2 : w.innerHeight / r.ratioHeight * r.ratioWidth < w.innerWidth :=
      (lt_div_iff₀ hw).mp h1
    have hx : 0 < (Ratiovision.resized w r).x := by
      rw [e10]
      simp only [h, if_true]
      rw [hg]
      linarith
    have hy0 : (Ratiovision.resized w r).y = 0 := by
      rw [e9, hg, mul_div_cancel₀ _ (ne_of_gt hh), sub_self, zero_div]
    exact ⟨le_of_lt hx, hy, Or.inr hy0, ⟨fun _ => h, fun _ => hx⟩⟩
  · have hx : (Ratiovision.resized w r).x = 0 := by
      rw [e10]
      simp only [h, if_false]
    refine ⟨le_of_eq hx.symm, hy, Or.inl hx, ⟨fun hpos => ?_, fun hc => absurd hc h⟩⟩
    rw [hx] at hpos
    exact absurd hpos (lt_irrefl 0)

theorem resized_letterbox_one_axis_witness :
    0 ≤ (Ratiovision.resized ⟨1920, 400⟩ camera169).x ∧
      0 ≤ (Ratiovision.resized ⟨1920, 400⟩ camera169).y ∧
      ((Ratiovision.resized ⟨1920, 400⟩ camera169).x = 0 ∨
        (Ratiovision.resized ⟨1920, 400⟩ camera169).y = 0) ∧
      (0 < (Ratiovision.resized ⟨1920, 400⟩ camera169).x ↔
        (1920 : ℚ) / camera169.ratioWidth * camera169.ratioHeight > 400) :=
  resized_letterbox_one_axis ⟨1920, 400⟩ camera169 (by norm_num [camera169])
    (by norm_num [camera169])

/-- C19: `resized()` depends only on `ratioWidth`, `ratioHeight`, `points` and the display
size: two transforms that agree on the three give the same `x`, `y`, `width`, `height`,
`maxX`, `maxY` and `scale` whatever they held before; a second `resized()` on the same
display changes nothing; and `ratioWidth`, `ratioHeight` and `points` are never changed. -/
theorem resized_depends_on_ratio_and_display (w : Window) (r1 r2 : Ratiovision)
    (hrw : r1.ratioWidth = r2.ratioWidth) (hrh : r1.ratioHeight = r2.ratioHeight)
    (hpt : r1.points = r2.points) :
    ((Ratiovision.resized w r1).x = (Ratiovision.resized w r2).x ∧
      (Ratiovision.resized w r1).y = (Ratiovision.resized w r2).y ∧
      (Ratiovision.resized w r1).width = (Ratiovision.resized w r2).width ∧
      (Ratiovision.resized w r1).height = (Ratiovision.resized w r2).height ∧
      (Ratiovision.resized w r1).maxX = (Ratiovision.resized w r2).maxX ∧
      (Ratiovision.resized w r1).maxY = (Ratiovision.resized w r2).maxY ∧
      (Ratiovision.resized w r1).scale = (Ratiovision.resized w r2).scale) ∧
    Ratiovision.resized w (Ratiovision.resized w r1) = Ratiovision.resized w r1 ∧
    ((Ratiovision.resized w r1).ratioWidth = r1.ratioWidth ∧
      (Ratiovision.resized w r1).ratioHeight = r1.ratioHeight ∧
      (Ratiovision.resized w r1).points = r1.points) := by
  obtain ⟨a1, a2, a3, a4, a5, a6, a7, a8, a9, a10⟩ := resized_fields w r1
  obtain ⟨-, -, -, b4, b5, b6, b7, b8, b9, b10⟩ := resized_fields w r2
  have hg : Ratiovision.gridLength w r1 = Ratiovision.gridLength w r2 := by
    unfold Ratiovision.gridLength
    rw [hrw, hrh]
  refine ⟨⟨?_, ?_, ?_, ?_, ?_, ?_, ?_⟩, ?_, a1, a2, a3⟩
  · rw [a10, b10, hg, hrw, hrh]
  · rw [a9, b9, hg, hrh]
  · rw [a4, b4]
  · rw [a5, b5]
  · rw [a6, b6, hg, hrw]
  · rw [a7, b7, hg, hrh]
  · rw [a8, b8, hg, hpt]
  · unfold Ratiovision.resized
    by_cases h : w.innerWidth / r1.ratioWidth * r1.ratioHeight > w.innerHeight
    · simp [h]
    · simp [h]

theorem resized_depends_on_ratio_and_display_witness :
    (Ratiovision.resized ⟨1000, 1000⟩ (Ratiovision.resized ⟨1920, 400⟩ camera169)).x =
        (Ratiovision.resized ⟨1000, 1000⟩ camera169).x ∧
      (Ratiovision.resized ⟨1000, 1000⟩ (Ratiovision.resized ⟨1920, 400⟩ camera169)).y =
        (Ratiovision.resized ⟨1000, 1000⟩ camera169).y :=
  ⟨(resized_depends_on_ratio_and_display ⟨1000, 1000⟩
      (Ratiovision.resized ⟨1920, 400⟩ camera169) camera169
      (resized_fields ⟨1920, 400⟩ camera169).1 (resized_fields ⟨1920, 400⟩ camera169).2.1
      (resized_fields ⟨1920, 400⟩ camera169).2.2.1).1.1,
    (resized_depends_on_ratio_and_display ⟨1000, 1000⟩
      (Ratiovision.resized ⟨1920, 400⟩ camera169) camera169
      (resized_fields ⟨1920, 400⟩ camera169).1 (resized_fields ⟨1920, 400⟩ camera169).2.1
      (resized_fields ⟨1920, 400⟩ camera169).2.2.1).1.2.1⟩

/-! ## Theorems: the sequence of grid lines -/

/-- C15: for positive integer `points` (and integer `ratioWidth`, `ratioHeight`), the
`drawLine` calls of `drawGrid()` are, in order, for `k = 0, ..., ratioWidth` the segment
from `(k*points, 0)` to `(k*points, ratioHeight*points)`, then for `k = 0, ..., ratioHeight`
the segment from `(0, k*points)` to `(ratioWidth*points, k*points)`, all in `"green"`; the
first of each run is at 0 and the last at the far edge. -/
theorem drawGrid_call_sequence (r : Ratiovision) (rw rh p fuel : ℕ) (hp : 0 < p)
    (hrw : r.ratioWidth = rw) (hrh : r.ratioHeight = rh) (hpt : r.points = p)
    (hfw : rw + 2 ≤ fuel) (hfh : rh + 2 ≤ fuel) :
    ∃ vs hs : List LineArgs,
      Ratiovision.drawGridCalls fuel r = some (vs ++ hs) ∧
      vs = (List.range (rw + 1)).map (fun k : ℕ =>
        LineArgs.mk ((k : ℚ) * p) 0 ((k : ℚ) * p) ((rh : ℚ) * p) "green") ∧
      hs = (List.range (rh + 1)).map (fun k : ℕ =>
        LineArgs.mk 0 ((k : ℚ) * p) ((rw : ℚ) * p) ((k : ℚ) * p) "green") ∧
      vs.head? = some (LineArgs.mk 0 0 0 ((rh : ℚ) * p) "green") ∧
      vs.getLast? =
        some (LineArgs.mk ((rw : ℚ) * p) 0 ((rw : ℚ) * p) ((rh : ℚ) * p) "green") ∧
      hs.head? = some (LineArgs.mk 0 0 ((rw : ℚ) * p) 0 "green") ∧
      hs.getLast? =
        some (LineArgs.mk 0 ((rh : ℚ) * p) ((rw : ℚ) * p) ((rh : ℚ) * p) "green") := by
  have hv : verticalLine r = fun k : ℕ =>
      LineArgs.mk ((k : ℚ) * p) 0 ((k : ℚ) * p) ((rh : ℚ) * p) "green" := by
    funext k
    simp only [verticalLine, hrh, hpt, mul_comm]
  have hh : horizontalLine r = fun k : ℕ =>
      LineArgs.mk 0 ((k : ℚ) * p) ((rw : ℚ) * p) ((k : ℚ) * p) "green" := by
    funext k
    simp only [horizontalLine, hrw, hpt, mul_comm]
  have hcalls := drawGridCalls_eq r rw rh p hp hrw hrh hpt fuel hfw hfh
  rw [hv, hh, ← List.range_eq_range', ← List.range_eq_range'] at hcalls
  refine ⟨_, _, hcalls, rfl, rfl, ?_, ?_, ?_, ?_⟩
  · simp only [List.range_succ_eq_map, List.map_cons, List.head?_cons, Nat.cast_zero,
      zero_mul]
  · simp only [List.range_succ, List.map_append, List.map_cons, List.map_nil,
      List.getLast?_concat]
  · simp only [List.range_succ_eq_map, List.map_cons, List.head?_cons, Nat.cast_zero,
      zero_mul]
  · simp only [List.range_succ, List.map_append, List.map_cons, List.map_nil,
      List.getLast?_concat]

theorem drawGrid_call_sequence_witness :
    ∃ vs hs : List LineArgs,
      Ratiovision.drawGridCalls 18 camera169 = some (vs ++ hs) ∧
      vs = (List.range (16 + 1)).map (fun k : ℕ =>
        LineArgs.mk ((k : ℚ) * (100 : ℕ)) 0 ((k : ℚ) * (100 : ℕ)) (((9 : ℕ) : ℚ) * (100 : ℕ))
          "green") ∧
      hs = (List.range (9 + 1)).map (fun k : ℕ =>
        LineArgs.mk 0 ((k : ℚ) * (100 : ℕ)) (((16 : ℕ) : ℚ) * (100 : ℕ)) ((k : ℚ) * (100 : ℕ))
          "green") ∧
      vs.head? = some (LineArgs.mk 0 0 0 (((9 : ℕ) : ℚ) * (100 : ℕ)) "green") ∧
      vs.getLast? =
        some (LineArgs.mk (((16 : ℕ) : ℚ) * (100 : ℕ)) 0 (((16 : ℕ) : ℚ) * (100 : ℕ))
          (((9 : ℕ) : ℚ) * (100 : ℕ)) "green") ∧
      hs.head? = some (LineArgs.mk 0 0 (((16 : ℕ) : ℚ) * (100 : ℕ)) 0 "green") ∧
      hs.getLast? =
        some (LineArgs.mk 0 (((9 : ℕ) : ℚ) * (100 : ℕ)) (((16 : ℕ) : ℚ) * (100 : ℕ))
          (((9 : ℕ) : ℚ) * (100 : ℕ)) "green") :=
  drawGrid_call_sequence camera169 16 9 100 18 (by decide)
    (by norm_num [camera169]) (by norm_num [camera169]) (by norm_num [camera169])
    (by decide) (by decide)

/-! ## Theorems: MasterController frame -/

/-- C20: `doKeyDown(key)` and `doKeyUp(key)` leave `keyMap` and `assignedObject` as they
were (the controller after the dispatch is the controller before it); `assignObject(o)`
sets `assignedObject` to `o`, `null` included, and leaves `keyMap` and so every lookup
unchanged, so a key dispatches the action it was bound to before the swap to the new
target. -/
theorem dispatch_and_assignObject_frame (mc : MasterController) (key : Nat)
    (object : Option Target) :
    (mc.doKeyDown key).state = mc ∧ (mc.doKeyUp key).state = mc ∧
      (mc.assignObject object).assignedObject = object ∧
      (mc.assignObject object).keyMap = mc.keyMap ∧
      (∀ k : Nat, MasterController.keyMapGet (mc.assignObject object).keyMap k =
        MasterController.keyMapGet mc.keyMap k) ∧
      (∀ target : Target,
        ((mc.assignObject (some target)).doKeyDown key).trace =
            [Effect.doActionDown target.id (MasterController.keyMapGet mc.keyMap key)] ∧
          ((mc.assignObject (some target)).doKeyUp key).trace =
            [Effect.doActionUp target.id (MasterController.keyMapGet mc.keyMap key)]) := by
  refine ⟨?_, ?_, rfl, rfl, fun _ => rfl, fun _ => ⟨rfl, rfl⟩⟩
  · unfold MasterController.doKeyDown
    cases mc.assignedObject with
    | none => rfl
    | some target => rfl
  · unfold MasterController.doKeyUp
    cases mc.assignedObject with
    | none => rfl
    | some target => rfl

/-! ## Theorems: the device map after a resize -/

section DeviceFacts

variable (w : Window) (r : Ratiovision)

theorem resized_scale_nonneg (hw : 0 < r.ratioWidth) (hh : 0 < r.ratioHeight)
    (hp : 0 < r.points) (hW : 0 ≤ w.innerWidth) (hH : 0 ≤ w.innerHeight) :
    0 ≤ (Ratiovision.resized w r).scale := by
  obtain ⟨-, -, -, -, -, -, -, e8, -, -⟩ := resized_fields w r
  rw [e8]
  exact div_nonneg (gridLength_nonneg w r hw hh hW hH) (le_of_lt hp)

theorem resized_scale_pos (hw : 0 < r.ratioWidth) (hh : 0 < r.ratioHeight)
    (hp : 0 < r.points) (hW : 0 < w.innerWidth) (hH : 0 < w.innerHeight) :
    0 < (Ratiovision.resized w r).scale := by
  obtain ⟨-, -, -, -, -, -, -, e8, -, -⟩ := resized_fields w r
  rw [e8]
  exact div_pos (gridLength_pos w r hw hh hW hH) hp

theorem resized_far_edge (hp : 0 < r.points) :
    ((Ratiovision.resized w r).ratioWidth * (Ratiovision.resized w r).points) *
        (Ratiovision.resized w r).scale = (Ratiovision.resized w r).maxX ∧
      ((Ratiovision.resized w r).ratioHeight * (Ratiovision.resized w r).points) *
        (Ratiovision.resized w r).scale = (Ratiovision.resized w r).maxY := by
  obtain ⟨e1, e2, e3, -, -, e6, e7, e8, -, -⟩ := resized_fields w r
  rw [e1, e2, e3, e6, e7, e8]
  have hp0 := ne_of_gt hp
  constructor
  · field_simp
    ring
  · field_simp
    ring

end DeviceFacts

/-- C16: after `resized()` with positive `ratioWidth`, `ratioHeight`, `points` and a
non-negative display size, `drawLine` sends the logical point `(lx, ly)` to the device
point `(x + lx*scale, y + ly*scale)`: the map is affine with the non-negative slope `scale`
on each axis, so it preserves order, and strictly so when both display dimensions are
positive. -/
theorem device_map_order_preserving (w : Window) (r : Ratiovision)
    (hw : 0 < r.ratioWidth) (hh : 0 < r.ratioHeight) (hp : 0 < r.points)
    (hW : 0 ≤ w.innerWidth) (hH : 0 ≤ w.innerHeight)
    (lx1 ly1 lx2 ly2 : ℚ) (style : String) :
    ∃ px1 py1 px2 py2 : ℚ,
      ((Ratiovision.resized w r).drawLine lx1 ly1 lx2 ly2 style).2 =
        [CtxOp.beginPath, CtxOp.moveTo px1 py1, CtxOp.setStrokeStyle style,
         CtxOp.lineTo px2 py2, CtxOp.stroke] ∧
      px1 = (Ratiovision.resized w r).x + lx1 * (Ratiovision.resized w r).scale ∧
      py1 = (Ratiovision.resized w r).y + ly1 * (Ratiovision.resized w r).scale ∧
      px2 - px1 = (lx2 - lx1) * (Ratiovision.resized w r).scale ∧
      py2 - py1 = (ly2 - ly1) * (Ratiovision.resized w r).scale ∧
      0 ≤ (Ratiovision.resized w r).scale ∧
      (lx1 ≤ lx2 → px1 ≤ px2) ∧ (ly1 ≤ ly2 → py1 ≤ py2) ∧
      (0 < w.innerWidth → 0 < w.innerHeight → lx1 < lx2 → px1 < px2) ∧
      (0 < w.innerWidth → 0 < w.innerHeight → ly1 < ly2 → py1 < py2) := by
  have hs := resized_scale_nonneg w r hw hh hp hW hH
  refine ⟨_, _, _, _, rfl, rfl, rfl, by ring, by ring, hs, ?_, ?_, ?_, ?_⟩
  · intro hle
    have := mul_le_mul_of_nonneg_right hle hs
    linarith
  · intro hle
    have := mul_le_mul_of_nonneg_right hle hs
    linarith
  · intro hW0 hH0 hlt
    have := mul_lt_mul_of_pos_right hlt (resized_scale_pos w r hw hh hp hW0 hH0)
    linarith
  · intro hW0 hH0 hlt
    have := mul_lt_mul_of_pos_right hlt (resized_scale_pos w r hw hh hp hW0 hH0)
    linarith

theorem device_map_order_preserving_witness :
    ∃ px1 py1 px2 py2 : ℚ,
      ((Ratiovision.resized ⟨1000, 1000⟩ camera169).drawLine 100 0 900 1600 "green").2 =
        [CtxOp.beginPath, CtxOp.moveTo px1 py1, CtxOp.setStrokeStyle "green",
         CtxOp.lineTo px2 py2, CtxOp.stroke] ∧
      px1 = (Ratiovision.resized ⟨1000, 1000⟩ camera169).x +
        100 * (Ratiovision.resized ⟨1000, 1000⟩ camera169).scale ∧
      py1 = (Ratiovision.resized ⟨1000, 1000⟩ camera169).y +
        0 * (Ratiovision.resized ⟨1000, 1000⟩ camera169).scale ∧
      px2 - px1 = (900 - 100) * (Ratiovision.resized ⟨1000, 1000⟩ camera169).scale ∧
      py2 - py1 = (1600 - 0) * (Ratiovision.resized ⟨1000, 1000⟩ camera169).scale ∧
      0 ≤ (Ratiovision.resized ⟨1000, 1000⟩ camera169).scale ∧
      ((100 : ℚ) ≤ 900 → px1 ≤ px2) ∧ ((0 : ℚ) ≤ 1600 → py1 ≤ py2) ∧
      ((0 : ℚ) < 1000 → (0 : ℚ) < 1000 → (100 : ℚ) < 900 → px1 < px2) ∧
      ((0 : ℚ) < 1000 → (0 : ℚ) < 1000 → (0 : ℚ) < 1600 → py1 < py2) :=
  device_map_order_preserving ⟨1000, 1000⟩ camera169 (by norm_num [camera169])
    (by norm_num [camera169]) (by norm_num [camera169]) (by norm_num) (by norm_num)
    100 0 900 1600 "green"

/-! ## Theorems: the grid lines on the device -/

section GridOnDevice

theorem device_between (origin scale t far side : ℚ) (h0 : 0 ≤ t) (ht : t ≤ far)
    (hs : 0 ≤ scale) (hedge : far * scale = side) :
    origin ≤ origin + t * scale ∧ origin + t * scale ≤ origin + side := by
  have h1 : 0 ≤ t * scale := mul_nonneg h0 hs
  have h2 : t * scale ≤ far * scale := mul_le_mul_of_nonneg_right ht hs
  constructor
  · linarith
  · linarith

theorem drawLine_points_inside (q : Ratiovision) (c : LineArgs) (farX farY : ℚ)
    (hs : 0 ≤ q.scale) (hX : farX * q.scale = q.maxX) (hY : farY * q.scale = q.maxY)
    (h1 : 0 ≤ c.startX ∧ c.startX ≤ farX) (h2 : 0 ≤ c.startY ∧ c.startY ≤ farY)
    (h3 : 0 ≤ c.endX ∧ c.endX ≤ farX) (h4 : 0 ≤ c.endY ∧ c.endY ≤ farY)
    (px py : ℚ)
    (hop : CtxOp.moveTo px py ∈ (q.drawLine c.startX c.startY c.endX c.endY c.style).2 ∨
      CtxOp.lineTo px py ∈ (q.drawLine c.startX c.startY c.endX c.endY c.style).2) :
    q.x ≤ px ∧ px ≤ q.x + q.maxX ∧ q.y ≤ py ∧ py ≤ q.y + q.maxY := by
  have a1 := device_between q.x q.scale c.startX farX q.maxX h1.1 h1.2 hs hX
  have a2 := device_between q.y q.scale c.startY farY q.maxY h2.1 h2.2 hs hY
  have a3 := device_between q.x q.scale c.endX farX q.maxX h3.1 h3.2 hs hX
  have a4 := device_between q.y q.scale c.endY farY q.maxY h4.1 h4.2 hs hY
  simp only [Ratiovision.drawLine, List.mem_cons, CtxOp.moveTo.injEq, CtxOp.lineTo.injEq,
    List.mem_singleton, List.not_mem_nil, reduceCtorEq, false_or, or_false] at hop
  rcases hop with ⟨rfl, rfl⟩ | ⟨rfl, rfl⟩
  · exact ⟨a1.1, a1.2, a2.1, a2.2⟩
  · exact ⟨a3.1, a3.2, a4.1, a4.2⟩

theorem range'_ends (n : ℕ) : List.range' 0 (n + 2) = 0 :: (List.range' 1 n ++ [n + 1]) := by
  rw [List.range'_succ, List.range'_concat]
  simp only [zero_add, one_mul, add_comm]

theorem drawLine_ops_length (q : Ratiovision) (l : List LineArgs) :
    (l.flatMap fun c => (q.drawLine c.startX c.startY c.endX c.endY c.style).2).length =
      5 * l.length := by
  induction l with
  | nil => rfl
  | cons c rest ih =>
    rw [List.flatMap_cons, List.length_append, ih, List.length_cons]
    simp only [Ratiovision.drawLine, List.length_cons, List.length_nil]
    omega

end GridOnDevice

/-- C18, amended, in exact arithmetic: after `resized()` with positive integer
`ratioWidth`, `ratioHeight`, `points` and a non-negative display size,
`(ratioWidth*points)*scale = maxX` and `(ratioHeight*points)*scale = maxY`; the context
calls of `drawGrid()` are, in order, the first vertical line on the left edge (device `x`),
the paths of the inner vertical lines (multiples 1 to `ratioWidth - 1` of `points`), the
last vertical line on the right edge (`x + maxX`), the first horizontal line on the top
edge (device `y`), the paths of the inner horizontal lines and the last horizontal line on
the bottom edge (`y + maxY`), five calls per line; and every point moved or drawn to lies
in `[x, x + maxX] x [y, y + maxY]`. -/
theorem drawGrid_inside_grid (w : Window) (r : Ratiovision) (rw rh p fuel : ℕ)
    (hrwpos : 0 < rw) (hrhpos : 0 < rh) (hp : 0 < p)
    (hrw : r.ratioWidth = rw) (hrh : r.ratioHeight = rh) (hpt : r.points = p)
    (hW : 0 ≤ w.innerWidth) (hH : 0 ≤ w.innerHeight)
    (hfw : rw + 2 ≤ fuel) (hfh : rh + 2 ≤ fuel) :
    (((Ratiovision.resized w r).ratioWidth * (Ratiovision.resized w r).points) *
        (Ratiovision.resized w r).scale = (Ratiovision.resized w r).maxX ∧
      ((Ratiovision.resized w r).ratioHeight * (Ratiovision.resized w r).points) *
        (Ratiovision.resized w r).scale = (Ratiovision.resized w r).maxY) ∧
    (∃ ops : List CtxOp,
      Ratiovision.drawGrid fuel (Ratiovision.resized w r) =
        some (Ratiovision.resized w r, ops) ∧
      ops =
        greenPath (Ratiovision.resized w r).x (Ratiovision.resized w r).y
            (Ratiovision.resized w r).x
            ((Ratiovision.resized w r).y + (Ratiovision.resized w r).maxY) ++
          linePaths (Ratiovision.resized w r)
            ((List.range' 1 (rw - 1)).map (verticalLine (Ratiovision.resized w r))) ++
          greenPath ((Ratiovision.resized w r).x + (Ratiovision.resized w r).maxX)
            (Ratiovision.resized w r).y
            ((Ratiovision.resized w r).x + (Ratiovision.resized w r).maxX)
            ((Ratiovision.resized w r).y + (Ratiovision.resized w r).maxY) ++
          greenPath (Ratiovision.resized w r).x (Ratiovision.resized w r).y
            ((Ratiovision.resized w r).x + (Ratiovision.resized w r).maxX)
            (Ratiovision.resized w r).y ++
          linePaths (Ratiovision.resized w r)
            ((List.range' 1 (rh - 1)).map (horizontalLine (Ratiovision.resized w r))) ++
          greenPath (Ratiovision.resized w r).x
            ((Ratiovision.resized w r).y + (Ratiovision.resized w r).maxY)
            ((Ratiovision.resized w r).x + (Ratiovision.resized w r).maxX)
            ((Ratiovision.resized w r).y + (Ratiovision.resized w r).maxY) ∧
      (linePaths (Ratiovision.resized w r)
        ((List.range' 1 (rw - 1)).map (verticalLine (Ratiovision.resized w r)))).length =
          5 * (rw - 1) ∧
      (linePaths (Ratiovision.resized w r)
        ((List.range' 1 (rh - 1)).map (horizontalLine (Ratiovision.resized w r)))).length =
          5 * (rh - 1) ∧
      ∀ px py : ℚ, (CtxOp.moveTo px py ∈ ops ∨ CtxOp.lineTo px py ∈ ops) →
        (Ratiovision.resized w r).x ≤ px ∧
          px ≤ (Ratiovision.resized w r).x + (Ratiovision.resized w r).maxX ∧
          (Ratiovision.resized w r).y ≤ py ∧
          py ≤ (Ratiovision.resized w r).y + (Ratiovision.resized w r).maxY) := by
  have hpq : (0 : ℚ) < (p : ℚ) := by exact_mod_cast hp
  have hwq : (0 : ℚ) < (rw : ℚ) := by exact_mod_cast hrwpos
  have hhq : (0 : ℚ) < (rh : ℚ) := by exact_mod_cast hrhpos
  obtain ⟨e1, e2, e3, -⟩ := resized_fields w r
  have hs := resized_scale_nonneg w r (by rw [hrw]; exact hwq) (by rw [hrh]; exact hhq)
    (by rw [hpt]; exact hpq) hW hH
  obtain ⟨hX, hY⟩ := resized_far_edge w r (by rw [hpt]; exact hpq)
  rw [hrw] at e1
  rw [hrh] at e2
  rw [hpt] at e3
  have hcalls := drawGridCalls_eq (Ratiovision.resized w r) rw rh p hp e1 e2 e3 fuel hfw hfh
  generalize Ratiovision.resized w r = q at e1 e2 e3 hs hX hY hcalls ⊢
  have hgrid : Ratiovision.drawGrid fuel q = some (q,
      ((List.range' 0 (rw + 1)).map (verticalLine q) ++
        (List.range' 0 (rh + 1)).map (horizontalLine q)).flatMap
          fun c => (q.drawLine c.startX c.startY c.endX c.endY c.style).2) := by
    simp only [Ratiovision.drawGrid, hcalls, Option.map_some']
  have hinside : ∀ px py : ℚ,
      (CtxOp.moveTo px py ∈ (((List.range' 0 (rw + 1)).map (verticalLine q) ++
          (List.range' 0 (rh + 1)).map (horizontalLine q)).flatMap
            fun c => (q.drawLine c.startX c.startY c.endX c.endY c.style).2) ∨
        CtxOp.lineTo px py ∈ (((List.range' 0 (rw + 1)).map (verticalLine q) ++
          (List.range' 0 (rh + 1)).map (horizontalLine q)).flatMap
            fun c => (q.drawLine c.startX c.startY c.endX c.endY c.style).2)) →
      q.x ≤ px ∧ px ≤ q.x + q.maxX ∧ q.y ≤ py ∧ py ≤ q.y + q.maxY := by
    intro px py hop
    have hmem : ∃ c, c ∈ (List.range' 0 (rw + 1)).map (verticalLine q) ++
          (List.range' 0 (rh + 1)).map (horizontalLine q) ∧
        (CtxOp.moveTo px py ∈ (q.drawLine c.startX c.startY c.endX c.endY c.style).2 ∨
          CtxOp.lineTo px py ∈ (q.drawLine c.startX c.startY c.endX c.endY c.style).2) := by
      rcases hop with hop | hop
      · obtain ⟨c, hc, hin⟩ := List.mem_flatMap.mp hop
        exact ⟨c, hc, Or.inl hin⟩
      · obtain ⟨c, hc, hin⟩ := List.mem_flatMap.mp hop
        exact ⟨c, hc, Or.inr hin⟩
    obtain ⟨c, hc, hin⟩ := hmem
    have hfarY : (0 : ℚ) ≤ q.ratioHeight * q.points := by
      rw [e2, e3]
      exact le_of_lt (mul_pos hhq hpq)
    have hfarX : (0 : ℚ) ≤ q.ratioWidth * q.points := by
      rw [e1, e3]
      exact le_of_lt (mul_pos hwq hpq)
    rcases List.mem_append.mp hc with hv | hh
    · obtain ⟨j, hj, rfl⟩ := List.mem_map.mp hv
      have hjle : j ≤ rw := by
        have := (List.mem_range'_1.mp hj).2
        omega
      have hjq : (j : ℚ) ≤ (rw : ℚ) := by exact_mod_cast hjle
      have hj0 : (0 : ℚ) ≤ (j : ℚ) := Nat.cast_nonneg j
      have hin1 : (0 : ℚ) ≤ (j : ℚ) * q.points ∧ (j : ℚ) * q.points ≤ q.ratioWidth * q.points := by
        rw [e1, e3]
        exact ⟨mul_nonneg hj0 (le_of_lt hpq), mul_le_mul_of_nonneg_right hjq (le_of_lt hpq)⟩
      exact drawLine_points_inside q (verticalLine q j) _ _ hs hX hY hin1
        ⟨le_refl _, hfarY⟩ hin1
        ⟨by show 0 ≤ q.points * q.ratioHeight; rw [mul_comm]; exact hfarY,
          by show q.points * q.ratioHeight ≤ q.ratioHeight * q.points
             exact le_of_eq (mul_comm _ _)⟩
        px py hin
    · obtain ⟨j, hj, rfl⟩ := List.mem_map.mp hh
      have hjle : j ≤ rh := by
        have := (List.mem_range'_1.mp hj).2
        omega
      have hjq : (j : ℚ) ≤ (rh : ℚ) := by exact_mod_cast hjle
      have hj0 : (0 : ℚ) ≤ (j : ℚ) := Nat.cast_nonneg j
      have hin1 : (0 : ℚ) ≤ (j : ℚ) * q.points ∧ (j : ℚ) * q.points ≤ q.ratioHeight * q.points := by
        rw [e2, e3]
        exact ⟨mul_nonneg hj0 (le_of_lt hpq), mul_le_mul_of_nonneg_right hjq (le_of_lt hpq)⟩
      exact drawLine_points_inside q (horizontalLine q j) _ _ hs hX hY
        ⟨le_refl _, hfarX⟩ hin1
        ⟨by show 0 ≤ q.points * q.ratioWidth; rw [mul_comm]; exact hfarX,
          by show q.points * q.ratioWidth ≤ q.ratioWidth * q.points
             exact le_of_eq (mul_comm _ _)⟩
        hin1 px py hin
  obtain ⟨a, rfl⟩ : ∃ a, rw = a + 1 := ⟨rw - 1, by omega⟩
  obtain ⟨b, rfl⟩ : ∃ b, rh = b + 1 := ⟨rh - 1, by omega⟩
  have hXl : ((a + 1 : ℕ) : ℚ) * q.points * q.scale = q.maxX := by
    rw [← e1]
    exact hX
  have hYl : ((b + 1 : ℕ) : ℚ) * q.points * q.scale = q.maxY := by
    rw [← e2]
    exact hY
  have hXr : q.points * q.ratioWidth * q.scale = q.maxX := by
    rw [mul_comm q.points]
    exact hX
  have hYr : q.points * q.ratioHeight * q.scale = q.maxY := by
    rw [mul_comm q.points]
    exact hY
  simp only [Nat.add_sub_cancel]
  refine ⟨⟨hX, hY⟩, _, hgrid, ?_, ?_, ?_, hinside⟩
  · rw [range'_ends a, range'_ends b]
    simp only [linePaths, List.map_cons, List.map_append, List.map_nil, List.flatMap_cons,
      List.flatMap_append, List.flatMap_nil, List.append_nil, List.append_assoc,
      Ratiovision.drawLine, verticalLine, horizontalLine, greenPath, Nat.cast_zero,
      zero_mul, add_zero, hXl, hYl, hXr, hYr]
  · rw [linePaths, drawLine_ops_length, List.length_map, List.length_range']
  · rw [linePaths, drawLine_ops_length, List.length_map, List.length_range']

theorem drawGrid_inside_grid_witness :
    ((Ratiovision.resized ⟨1000, 1000⟩ camera169).ratioWidth *
          (Ratiovision.resized ⟨1000, 1000⟩ camera169).points) *
        (Ratiovision.resized ⟨1000, 1000⟩ camera169).scale =
          (Ratiovision.resized ⟨1000, 1000⟩ camera169).maxX ∧
      ((Ratiovision.resized ⟨1000, 1000⟩ camera169).ratioHeight *
          (Ratiovision.resized ⟨1000, 1000⟩ camera169).points) *
        (Ratiovision.resized ⟨1000, 1000⟩ camera169).scale =
          (Ratiovision.resized ⟨1000, 1000⟩ camera169).maxY :=
  (drawGrid_inside_grid ⟨1000, 1000⟩ camera169 16 9 100 18 (by decide) (by decide)
    (by decide) (by norm_num [camera169]) (by norm_num [camera169])
    (by norm_num [camera169]) (by norm_num) (by norm_num) (by decide) (by decide)).1

/-! ## Lemmas: rounding to binary64 -/

section RoundingFacts

theorem roundHalfEven_eq_of_near (s : ℚ) (m : ℤ) (h : |s - m| < 1 / 2) :
    roundHalfEven s = m := by
  have h1 := (abs_lt.mp h).1
  have h2 := (abs_lt.mp h).2
  unfold roundHalfEven
  by_cases hm : (m : ℚ) ≤ s
  · have hf : ⌊s⌋ = m := by
      rw [Int.floor_eq_iff]
      constructor
      · exact hm
      · linarith
    simp only [hf]
    rw [if_pos h2]
  · have hm2 : s < m := not_le.mp hm
    have hf : ⌊s⌋ = m - 1 := by
      rw [Int.floor_eq_iff]
      push_cast
      constructor
      · linarith
      · linarith
    simp only [hf]
    push_cast
    have c1 : ¬ (s - ((m : ℚ) - 1) < 1 / 2) := by
      intro hc
      linarith
    have c2 : 1 / 2 < s - ((m : ℚ) - 1) := by linarith
    rw [if_neg c1, if_pos c2]
    ring

theorem roundHalfEven_eq_of_tie (s : ℚ) (m : ℤ) (h : s - m = 1 / 2 ∨ s - m = -1 / 2)
    (heven : m % 2 = 0) : roundHalfEven s = m := by
  unfold roundHalfEven
  rcases h with h | h
  · have hf : ⌊s⌋ = m := by
      rw [Int.floor_eq_iff]
      constructor
      · linarith
      · linarith
    simp only [hf, h]
    rw [if_neg (lt_irrefl _), if_neg (lt_irrefl _), if_pos heven]
  · have hf : ⌊s⌋ = m - 1 := by
      rw [Int.floor_eq_iff]
      push_cast
      constructor
      · linarith
      · linarith
    have hrem : s - ((m - 1 : ℤ) : ℚ) = 1 / 2 := by
      push_cast
      linarith
    have hodd : ¬ ((m - 1) % 2 = 0) := by omega
    simp only [hf, hrem]
    rw [if_neg (lt_irrefl _), if_neg (lt_irrefl _), if_neg hodd]
    ring

theorem roundDouble_zero : roundDouble 0 = 0 := by
  unfold roundDouble
  rw [zero_div, roundHalfEven_eq_of_near 0 0 (by norm_num)]
  norm_num

/-- A rounding certificate: when `u = 2 ^ k` is the unit in the last place at `q`
(`2 ^ 52 * u ≤ |q| < 2 ^ 53 * u`, normal range) and `q / u` rounds to the integer `m`,
the binary64 nearest to `q` is `m * u`. -/
theorem roundDouble_eq_of_round (q u : ℚ) (m k : ℤ) (hk : -1074 ≤ k) (hu : u = 2 ^ k)
    (hlo : 2 ^ 52 * u ≤ |q|) (hhi : |q| < 2 ^ 53 * u) (hround : roundHalfEven (q / u) = m) :
    roundDouble q = m * u := by
  have hupos : (0 : ℚ) < u := by
    rw [hu]
    exact zpow_pos (by norm_num) k
  have hqpos : 0 < |q| := lt_of_lt_of_le (mul_pos (by norm_num) hupos) hlo
  have hlog : Int.log 2 |q| = k + 52 := by
    apply le_antisymm
    · have hlt : Int.log 2 |q| < k + 53 := by
        rw [← Int.lt_zpow_iff_log_lt (by norm_num) hqpos]
        have hpow : (2 : ℚ) ^ (k + 53) = 2 ^ 53 * u := by
          rw [hu, zpow_add₀ (by norm_num)]
          norm_num
          ring
        push_cast
        rw [hpow]
        exact hhi
      omega
    · rw [← Int.zpow_le_iff_le_log (by norm_num) hqpos]
      have hpow : (2 : ℚ) ^ (k + 52) = 2 ^ 52 * u := by
        rw [hu, zpow_add₀ (by norm_num)]
        norm_num
        ring
      push_cast
      rw [hpow]
      exact hlo
  have hulp : ulpExponent q = k := by
    unfold ulpExponent
    rw [hlog]
    have hsub : k + 52 - 52 = k := by ring
    rw [hsub]
    exact max_eq_left hk
  unfold roundDouble
  rw [hulp, ← hu, hround]

theorem JsNumber.ofExact_zero : JsNumber.ofExact 0 = JsNumber.finite 0 := by
  unfold JsNumber.ofExact
  rw [roundDouble_zero]
  norm_num

theorem JsNumber.ofExact_round (q u v : ℚ) (m k : ℤ) (hk : -1074 ≤ k) (hu : u = 2 ^ k)
    (hlo : 2 ^ 52 * u ≤ |q|) (hhi : |q| < 2 ^ 53 * u) (hround : roundHalfEven (q / u) = m)
    (hv : v = m * u) (hfin : |v| < 2 ^ 1024) :
    JsNumber.ofExact q = JsNumber.finite v := by
  have hr : roundDouble q = v := by
    rw [hv]
    exact roundDouble_eq_of_round q u m k hk hu hlo hhi hround
  have h1 := (abs_lt.mp hfin).1
  have h2 := (abs_lt.mp hfin).2
  unfold JsNumber.ofExact
  rw [hr, if_neg (not_le.mpr h2), if_neg (not_le.mpr h1)]

theorem JsNumber.div_finite_round (a b u v : ℚ) (m k : ℤ) (hb : b ≠ 0) (hk : -1074 ≤ k)
    (hu : u = 2 ^ k) (hlo : 2 ^ 52 * u ≤ |a / b|) (hhi : |a / b| < 2 ^ 53 * u)
    (hround : roundHalfEven (a / b / u) = m) (hv : v = m * u)
    (hfin : |v| < 2 ^ 1024) :
    JsNumber.div (JsNumber.finite a) (JsNumber.finite b) = JsNumber.finite v := by
  simp only [JsNumber.div, hb, if_false]
  exact JsNumber.ofExact_round _ u v m k hk hu hlo hhi hround hv hfin

theorem JsNumber.mul_finite_round (a b u v : ℚ) (m k : ℤ) (hk : -1074 ≤ k)
    (hu : u = 2 ^ k) (hlo : 2 ^ 52 * u ≤ |a * b|) (hhi : |a * b| < 2 ^ 53 * u)
    (hround : roundHalfEven (a * b / u) = m) (hv : v = m * u)
    (hfin : |v| < 2 ^ 1024) :
    JsNumber.mul (JsNumber.finite a) (JsNumber.finite b) = JsNumber.finite v := by
  simp only [JsNumber.mul]
  exact JsNumber.ofExact_round _ u v m k hk hu hlo hhi hround hv hfin

theorem JsNumber.add_finite_round (a b u v : ℚ) (m k : ℤ) (hk : -1074 ≤ k)
    (hu : u = 2 ^ k) (hlo : 2 ^ 52 * u ≤ |a + b|) (hhi : |a + b| < 2 ^ 53 * u)
    (hround : roundHalfEven ((a + b) / u) = m) (hv : v = m * u)
    (hfin : |v| < 2 ^ 1024) :
    JsNumber.add (JsNumber.finite a) (JsNumber.finite b) = JsNumber.finite v := by
  simp only [JsNumber.add]
  exact JsNumber.ofExact_round _ u v m k hk hu hlo hhi hround hv hfin

theorem JsNumber.sub_finite_round (a b u v : ℚ) (m k : ℤ) (hk : -1074 ≤ k)
    (hu : u = 2 ^ k) (hlo : 2 ^ 52 * u ≤ |a - b|) (hhi : |a - b| < 2 ^ 53 * u)
    (hround : roundHalfEven ((a - b) / u) = m) (hv : v = m * u)
    (hfin : |v| < 2 ^ 1024) :
    JsNumber.sub (JsNumber.finite a) (JsNumber.finite b) = JsNumber.finite v := by
  simp only [JsNumber.sub, JsNumber.neg, JsNumber.add, ← sub_eq_add_neg]
  exact JsNumber.ofExact_round _ u v m k hk hu hlo hhi hround hv hfin

theorem JsNumber.div_finite_zero (a b : ℚ) (h0 : a = 0) (hb : b ≠ 0) :
    JsNumber.div (JsNumber.finite a) (JsNumber.finite b) = JsNumber.finite 0 := by
  simp only [JsNumber.div, hb, if_false, h0, zero_div]
  exact JsNumber.ofExact_zero

theorem JsNumber.mul_finite_zero (a b : ℚ) (h0 : a * b = 0) :
    JsNumber.mul (JsNumber.finite a) (JsNumber.finite b) = JsNumber.finite 0 := by
  simp only [JsNumber.mul, h0]
  exact JsNumber.ofExact_zero

theorem JsNumber.add_finite_zero (a b : ℚ) (h0 : a + b = 0) :
    JsNumber.add (JsNumber.finite a) (JsNumber.finite b) = JsNumber.finite 0 := by
  simp only [JsNumber.add, h0]
  exact JsNumber.ofExact_zero

theorem JsNumber.sub_finite_zero (a b : ℚ) (h0 : a - b = 0) :
    JsNumber.sub (JsNumber.finite a) (JsNumber.finite b) = JsNumber.finite 0 := by
  simp only [JsNumber.sub, JsNumber.neg, JsNumber.add, ← sub_eq_add_neg, h0]
  exact JsNumber.ofExact_zero

end RoundingFacts

/-! ## Theorems: what rounding does to the exact equalities -/

/-- C2, counterexample: the 21:9 camera on a 23 by 10 display, in binary64 arithmetic.
The width fits, so `x` stays 0, and `maxX = (23 / 21) * 21` rounds to `23 + 2 ^ -48`
(23.000000000000004): `2 * x + maxX` is not the display width 23. -/
theorem centring_fails_in_doubles :
    (Ieee.Ratiovision.resized ⟨.finite 23, .finite 10⟩ (Ieee.camera 21 9)).x = .finite 0 ∧
      (Ieee.Ratiovision.resized ⟨.finite 23, .finite 10⟩ (Ieee.camera 21 9)).maxX =
        .finite (6473924464345089 / 281474976710656) ∧
      JsNumber.add (JsNumber.mul (.finite 2) (Ieee.Ratiovision.resized ⟨.finite 23, .finite 10⟩ (Ieee.camera 21 9)).x)
          (Ieee.Ratiovision.resized ⟨.finite 23, .finite 10⟩ (Ieee.camera 21 9)).maxX =
        .finite (6473924464345089 / 281474976710656) ∧
      ((6473924464345089 / 281474976710656) : ℚ) = 23 + 1 / 2 ^ 48 ∧
      JsNumber.finite (6473924464345089 / 281474976710656) ≠ JsNumber.finite 23 := by
  have h1 : JsNumber.div (.finite 23) (.finite 21) = .finite (2466256938798129 / 2251799813685248) :=
    JsNumber.div_finite_round _ _ (1 / 2 ^ 52) (2466256938798129 / 2251799813685248) 4932513877596258 (-52) (by norm_num)
      (by norm_num) (by norm_num [zpow_neg]) (by norm_num [abs_of_pos, abs_of_neg])
      (by norm_num [abs_of_pos, abs_of_neg])
      (roundHalfEven_eq_of_near _ _ (by norm_num [abs_lt]))
      (by norm_num) (by norm_num [abs_lt])
  have h2 : JsNumber.mul (.finite (2466256938798129 / 2251799813685248)) (.finite 9) = .finite (2774539056147895 / 281474976710656) :=
    JsNumber.mul_finite_round _ _ (1 / 2 ^ 49) (2774539056147895 / 281474976710656) 5549078112295790 (-49)
      (by norm_num) (by norm_num [zpow_neg]) (by norm_num [abs_of_pos, abs_of_neg])
      (by norm_num [abs_of_pos, abs_of_neg])
      (roundHalfEven_eq_of_near _ _ (by norm_num [abs_lt]))
      (by norm_num) (by norm_num [abs_lt])
  have h3 : JsNumber.gt (.finite (2774539056147895 / 281474976710656)) (.finite 10) = false := by
    simp only [JsNumber.gt, decide_eq_false_iff_not]
    norm_num
  have h4 : JsNumber.mul (.finite 9) (.finite (2466256938798129 / 2251799813685248)) = .finite (2774539056147895 / 281474976710656) :=
    JsNumber.mul_finite_round _ _ (1 / 2 ^ 49) (2774539056147895 / 281474976710656) 5549078112295790 (-49)
      (by norm_num) (by norm_num [zpow_neg]) (by norm_num [abs_of_pos, abs_of_neg])
      (by norm_num [abs_of_pos, abs_of_neg])
      (roundHalfEven_eq_of_near _ _ (by norm_num [abs_lt]))
      (by norm_num) (by norm_num [abs_lt])
  have h5 : JsNumber.sub (.finite 10) (.finite (2774539056147895 / 281474976710656)) = .finite (40210710958665 / 281474976710656) :=
    JsNumber.sub_finite_round _ _ (1 / 2 ^ 55) (40210710958665 / 281474976710656) 5146971002709120 (-55)
      (by norm_num) (by norm_num [zpow_neg]) (by norm_num [abs_of_pos, abs_of_neg])
      (by norm_num [abs_of_pos, abs_of_neg])
      (roundHalfEven_eq_of_near _ _ (by norm_num [abs_lt]))
      (by norm_num) (by norm_num [abs_lt])
  have h6 : JsNumber.div (.finite (40210710958665 / 281474976710656)) (.finite 2) = .finite (40210710958665 / 562949953421312) :=
    JsNumber.div_finite_round _ _ (1 / 2 ^ 56) (40210710958665 / 562949953421312) 5146971002709120 (-56) (by norm_num)
      (by norm_num) (by norm_num [zpow_neg]) (by norm_num [abs_of_pos, abs_of_neg])
      (by norm_num [abs_of_pos, abs_of_neg])
      (roundHalfEven_eq_of_near _ _ (by norm_num [abs_lt]))
      (by norm_num) (by norm_num [abs_lt])
  have h7 : JsNumber.mul (.finite (2466256938798129 / 2251799813685248)) (.finite 21) = .finite (6473924464345089 / 281474976710656) :=
    JsNumber.mul_finite_round _ _ (1 / 2 ^ 48) (6473924464345089 / 281474976710656) 6473924464345089 (-48)
      (by norm_num) (by norm_num [zpow_neg]) (by norm_num [abs_of_pos, abs_of_neg])
      (by norm_num [abs_of_pos, abs_of_neg])
      (roundHalfEven_eq_of_near _ _ (by norm_num [abs_lt]))
      (by norm_num) (by norm_num [abs_lt])
  have h8 : JsNumber.mul (.finite (2466256938798129 / 2251799813685248)) (.finite 9) = .finite (2774539056147895 / 281474976710656) :=
    JsNumber.mul_finite_round _ _ (1 / 2 ^ 49) (2774539056147895 / 281474976710656) 5549078112295790 (-49)
      (by norm_num) (by norm_num [zpow_neg]) (by norm_num [abs_of_pos, abs_of_neg])
      (by norm_num [abs_of_pos, abs_of_neg])
      (roundHalfEven_eq_of_near _ _ (by norm_num [abs_lt]))
      (by norm_num) (by norm_num [abs_lt])
  have h9 : JsNumber.div (.finite (2466256938798129 / 2251799813685248)) (.finite 100) = .finite (3156808881661605 / 288230376151711744) :=
    JsNumber.div_finite_round _ _ (1 / 2 ^ 59) (3156808881661605 / 288230376151711744) 6313617763323210 (-59) (by norm_num)
      (by norm_num) (by norm_num [zpow_neg]) (by norm_num [abs_of_pos, abs_of_neg])
      (by norm_num [abs_of_pos, abs_of_neg])
      (roundHalfEven_eq_of_near _ _ (by norm_num [abs_lt]))
      (by norm_num) (by norm_num [abs_lt])
  have h10 : JsNumber.mul (.finite 2) (.finite 0) = .finite 0 :=
    JsNumber.mul_finite_zero _ _ (by norm_num)
  have h11 : JsNumber.add (.finite 0) (.finite (6473924464345089 / 281474976710656)) = .finite (6473924464345089 / 281474976710656) :=
    JsNumber.add_finite_round _ _ (1 / 2 ^ 48) (6473924464345089 / 281474976710656) 6473924464345089 (-48)
      (by norm_num) (by norm_num [zpow_neg]) (by norm_num [abs_of_pos, abs_of_neg])
      (by norm_num [abs_of_pos, abs_of_neg])
      (roundHalfEven_eq_of_near _ _ (by norm_num [abs_lt]))
      (by norm_num) (by norm_num [abs_lt])
  obtain ⟨-, -, -, -, -, -, e7, -, -, -, e11⟩ :=
    resized_fields_binary64 ⟨.finite 23, .finite 10⟩ (Ieee.camera 21 9)
  simp only [Ieee.Ratiovision.gridLength, Ieee.camera, h1, h2, h3, h4, h5, h6, h7, h8, h9,
    Bool.false_eq_true, if_false, if_true] at e11 e7
  have h_x : (Ieee.Ratiovision.resized ⟨.finite 23, .finite 10⟩ (Ieee.camera 21 9)).x =
      .finite 0 := e11
  have h_maxX : (Ieee.Ratiovision.resized ⟨.finite 23, .finite 10⟩ (Ieee.camera 21 9)).maxX =
      .finite (6473924464345089 / 281474976710656) := e7
  refine ⟨h_x, h_maxX, ?_, by norm_num, ?_⟩
  · rw [h_x, h_maxX, h10, h11]
  · intro h
    rw [JsNumber.finite.injEq] at h
    norm_num at h

/-- C12, counterexample: the game's 16:9 camera with 100 points on a 1366 by 768 display,
in binary64 arithmetic.  `scale = (768 / 9) / 100` is 0.8533333333333333, while
`maxY / (ratioHeight * points) = 768 / 900` is 0.8533333333333334. -/
theorem scale_differs_in_doubles :
    (Ieee.Ratiovision.resized ⟨.finite 1366, .finite 768⟩ (Ieee.camera 16 9)).scale =
        .finite (3843071682022823 / 4503599627370496) ∧
      (Ieee.Ratiovision.resized ⟨.finite 1366, .finite 768⟩ (Ieee.camera 16 9)).maxY = .finite 768 ∧
      JsNumber.div (Ieee.Ratiovision.resized ⟨.finite 1366, .finite 768⟩ (Ieee.camera 16 9)).maxY
          (JsNumber.mul (Ieee.Ratiovision.resized ⟨.finite 1366, .finite 768⟩ (Ieee.camera 16 9)).ratioHeight
            (Ieee.Ratiovision.resized ⟨.finite 1366, .finite 768⟩ (Ieee.camera 16 9)).points) =
        .finite (7686143364045647 / 9007199254740992) ∧
      JsNumber.finite (7686143364045647 / 9007199254740992) ≠ JsNumber.finite (3843071682022823 / 4503599627370496) := by
  have h1 : JsNumber.div (.finite 1366) (.finite 16) = .finite (683 / 8) :=
    JsNumber.div_finite_round _ _ (1 / 2 ^ 46) (683 / 8) 6007731534168064 (-46) (by norm_num)
      (by norm_num) (by norm_num [zpow_neg]) (by norm_num [abs_of_pos, abs_of_neg])
      (by norm_num [abs_of_pos, abs_of_neg])
      (roundHalfEven_eq_of_near _ _ (by norm_num [abs_lt]))
      (by norm_num) (by norm_num [abs_lt])
  have h2 : JsNumber.mul (.finite (683 / 8)) (.finite 9) = .finite (6147 / 8) :=
    JsNumber.mul_finite_round _ _ (1 / 2 ^ 43) (6147 / 8) 6758697975939072 (-43)
      (by norm_num) (by norm_num [zpow_neg]) (by norm_num [abs_of_pos, abs_of_neg])
      (by norm_num [abs_of_pos, abs_of_neg])
      (roundHalfEven_eq_of_near _ _ (by norm_num [abs_lt]))
      (by norm_num) (by norm_num [abs_lt])
  have h3 : JsNumber.gt (.finite (6147 / 8)) (.finite 768) = true := by
    simp only [JsNumber.gt, decide_eq_true_eq]
    norm_num
  have h4 : JsNumber.div (.finite 768) (.finite 9) = .finite (6004799503160661 / 70368744177664) :=
    JsNumber.div_finite_round _ _ (1 / 2 ^ 46) (6004799503160661 / 70368744177664) 6004799503160661 (-46) (by norm_num)
      (by norm_num) (by norm_num [zpow_neg]) (by norm_num [abs_of_pos, abs_of_neg])
      (by norm_num [abs_of_pos, abs_of_neg])
      (roundHalfEven_eq_of_near _ _ (by norm_num [abs_lt]))
      (by norm_num) (by norm_num [abs_lt])
  have h5 : JsNumber.mul (.finite 16) (.finite (6004799503160661 / 70368744177664)) = .finite (6004799503160661 / 4398046511104) :=
    JsNumber.mul_finite_round _ _ (1 / 2 ^ 42) (6004799503160661 / 4398046511104) 6004799503160661 (-42)
      (by norm_num) (by norm_num [zpow_neg]) (by norm_num [abs_of_pos, abs_of_neg])
      (by norm_num [abs_of_pos, abs_of_neg])
      (roundHalfEven_eq_of_near _ _ (by norm_num [abs_lt]))
      (by norm_num) (by norm_num [abs_lt])
  have h6 : JsNumber.sub (.finite 1366) (.finite (6004799503160661 / 4398046511104)) = .finite (2932031007403 / 4398046511104) :=
    JsNumber.sub_finite_round _ _ (1 / 2 ^ 53) (2932031007403 / 4398046511104) 6004799503161344 (-53)
      (by norm_num) (by norm_num [zpow_neg]) (by norm_num [abs_of_pos, abs_of_neg])
      (by norm_num [abs_of_pos, abs_of_neg])
      (roundHalfEven_eq_of_near _ _ (by norm_num [abs_lt]))
      (by norm_num) (by norm_num [abs_lt])
  have h7 : JsNumber.div (.finite (2932031007403 / 4398046511104)) (.finite 2) = .finite (2932031007403 / 8796093022208) :=
    JsNumber.div_finite_round _ _ (1 / 2 ^ 54) (2932031007403 / 8796093022208) 6004799503161344 (-54) (by norm_num)
      (by norm_num) (by norm_num [zpow_neg]) (by norm_num [abs_of_pos, abs_of_neg])
      (by norm_num [abs_of_pos, abs_of_neg])
      (roundHalfEven_eq_of_near _ _ (by norm_num [abs_lt]))
      (by norm_num) (by norm_num [abs_lt])
  have h8 : JsNumber.mul (.finite 9) (.finite (6004799503160661 / 70368744177664)) = .finite 768 :=
    JsNumber.mul_finite_round _ _ (1 / 2 ^ 43) 768 6755399441055744 (-43)
      (by norm_num) (by norm_num [zpow_neg]) (by norm_num [abs_of_pos, abs_of_neg])
      (by norm_num [abs_of_pos, abs_of_neg])
      (roundHalfEven_eq_of_near _ _ (by norm_num [abs_lt]))
      (by norm_num) (by norm_num [abs_lt])
  have h9 : JsNumber.sub (.finite 768) (.finite 768) = .finite 0 :=
    JsNumber.sub_finite_zero _ _ (by norm_num)
  have h10 : JsNumber.div (.finite 0) (.finite 2) = .finite 0 :=
    JsNumber.div_finite_zero _ _ (by norm_num) (by norm_num)
  have h11 : JsNumber.mul (.finite (6004799503160661 / 70368744177664)) (.finite 16) = .finite (6004799503160661 / 4398046511104) :=
    JsNumber.mul_finite_round _ _ (1 / 2 ^ 42) (6004799503160661 / 4398046511104) 6004799503160661 (-42)
      (by norm_num) (by norm_num [zpow_neg]) (by norm_num [abs_of_pos, abs_of_neg])
      (by norm_num [abs_of_pos, abs_of_neg])
      (roundHalfEven_eq_of_near _ _ (by norm_num [abs_lt]))
      (by norm_num) (by norm_num [abs_lt])
  have h12 : JsNumber.mul (.finite (6004799503160661 / 70368744177664)) (.finite 9) = .finite 768 :=
    JsNumber.mul_finite_round _ _ (1 / 2 ^ 43) 768 6755399441055744 (-43)
      (by norm_num) (by norm_num [zpow_neg]) (by norm_num [abs_of_pos, abs_of_neg])
      (by norm_num [abs_of_pos, abs_of_neg])
      (roundHalfEven_eq_of_near _ _ (by norm_num [abs_lt]))
      (by norm_num) (by norm_num [abs_lt])
  have h13 : JsNumber.div (.finite (6004799503160661 / 70368744177664)) (.finite 100) = .finite (3843071682022823 / 4503599627370496) :=
    JsNumber.div_finite_round _ _ (1 / 2 ^ 53) (3843071682022823 / 4503599627370496) 7686143364045646 (-53) (by norm_num)
      (by norm_num) (by norm_num [zpow_neg]) (by norm_num [abs_of_pos, abs_of_neg])
      (by norm_num [abs_of_pos, abs_of_neg])
      (roundHalfEven_eq_of_near _ _ (by norm_num [abs_lt]))
      (by norm_num) (by norm_num [abs_lt])
  have h14 : JsNumber.mul (.finite 9) (.finite 100) = .finite 900 :=
    JsNumber.mul_finite_round _ _ (1 / 2 ^ 43) 900 7916483719987200 (-43)
      (by norm_num) (by norm_num [zpow_neg]) (by norm_num [abs_of_pos, abs_of_neg])
      (by norm_num [abs_of_pos, abs_of_neg])
      (roundHalfEven_eq_of_near _ _ (by norm_num [abs_lt]))
      (by norm_num) (by norm_num [abs_lt])
  have h15 : JsNumber.div (.finite 768) (.finite 900) = .finite (7686143364045647 / 9007199254740992) :=
    JsNumber.div_finite_round _ _ (1 / 2 ^ 53) (7686143364045647 / 9007199254740992) 7686143364045647 (-53) (by norm_num)
      (by norm_num) (by norm_num [zpow_neg]) (by norm_num [abs_of_pos, abs_of_neg])
      (by norm_num [abs_of_pos, abs_of_neg])
      (roundHalfEven_eq_of_near _ _ (by norm_num [abs_lt]))
      (by norm_num) (by norm_num [abs_lt])
  have h16 : JsNumber.mul (.finite 16) (.finite 100) = .finite 1600 :=
    JsNumber.mul_finite_round _ _ (1 / 2 ^ 42) 1600 7036874417766400 (-42)
      (by norm_num) (by norm_num [zpow_neg]) (by norm_num [abs_of_pos, abs_of_neg])
      (by norm_num [abs_of_pos, abs_of_neg])
      (roundHalfEven_eq_of_near _ _ (by norm_num [abs_lt]))
      (by norm_num) (by norm_num [abs_lt])
  have h17 : JsNumber.div (.finite (6004799503160661 / 4398046511104)) (.finite 1600) = .finite (3843071682022823 / 4503599627370496) :=
    JsNumber.div_finite_round _ _ (1 / 2 ^ 53) (3843071682022823 / 4503599627370496) 7686143364045646 (-53) (by norm_num)
      (by norm_num) (by norm_num [zpow_neg]) (by norm_num [abs_of_pos, abs_of_neg])
      (by norm_num [abs_of_pos, abs_of_neg])
      (roundHalfEven_eq_of_near _ _ (by norm_num [abs_lt]))
      (by norm_num) (by norm_num [abs_lt])
  obtain ⟨e1, e2, e3, -, -, -, e7, e8, e9, -, -⟩ :=
    resized_fields_binary64 ⟨.finite 1366, .finite 768⟩ (Ieee.camera 16 9)
  simp only [Ieee.Ratiovision.gridLength, Ieee.camera, h1, h2, h3, h4, h5, h6, h7, h8, h9, h10, h11, h12, h13,
    Bool.false_eq_true, if_false, if_true] at e1 e2 e3 e7 e8 e9
  have h_ratioWidth : (Ieee.Ratiovision.resized ⟨.finite 1366, .finite 768⟩ (Ieee.camera 16 9)).ratioWidth =
      .finite 16 := e1
  have h_ratioHeight : (Ieee.Ratiovision.resized ⟨.finite 1366, .finite 768⟩ (Ieee.camera 16 9)).ratioHeight =
      .finite 9 := e2
  have h_points : (Ieee.Ratiovision.resized ⟨.finite 1366, .finite 768⟩ (Ieee.camera 16 9)).points =
      .finite 100 := e3
  have h_maxX : (Ieee.Ratiovision.resized ⟨.finite 1366, .finite 768⟩ (Ieee.camera 16 9)).maxX =
      .finite (6004799503160661 / 4398046511104) := e7
  have h_maxY : (Ieee.Ratiovision.resized ⟨.finite 1366, .finite 768⟩ (Ieee.camera 16 9)).maxY =
      .finite 768 := e8
  have h_scale : (Ieee.Ratiovision.resized ⟨.finite 1366, .finite 768⟩ (Ieee.camera 16 9)).scale =
      .finite (3843071682022823 / 4503599627370496) := e9
  refine ⟨h_scale, h_maxY, ?_, ?_⟩
  · rw [h_maxY, h_ratioHeight, h_points, h14, h15]
  · intro h
    rw [JsNumber.finite.injEq] at h
    norm_num at h

/-- C14, counterexample, in binary64 arithmetic.  On a display of width 0 (height 1080)
the 16:9 camera has `maxX = 0` and `maxY = 0`, so `maxX / maxY` is `NaN`.  On a 1067 by
600 display `maxX / maxY` is 1.777777777777778, while `ratioWidth / ratioHeight` is
1.7777777777777777. -/
theorem quotient_fails_in_doubles :
    ((Ieee.Ratiovision.resized ⟨.finite 0, .finite 1080⟩ (Ieee.camera 16 9)).maxX = .finite 0 ∧
      (Ieee.Ratiovision.resized ⟨.finite 0, .finite 1080⟩ (Ieee.camera 16 9)).maxY = .finite 0 ∧
      JsNumber.div (Ieee.Ratiovision.resized ⟨.finite 0, .finite 1080⟩ (Ieee.camera 16 9)).maxX
          (Ieee.Ratiovision.resized ⟨.finite 0, .finite 1080⟩ (Ieee.camera 16 9)).maxY = .nan) ∧
    (JsNumber.div (Ieee.Ratiovision.resized ⟨.finite 1067, .finite 600⟩ (Ieee.camera 16 9)).maxX
          (Ieee.Ratiovision.resized ⟨.finite 1067, .finite 600⟩ (Ieee.camera 16 9)).maxY =
        .finite (8006399337547549 / 4503599627370496) ∧
      JsNumber.div (Ieee.Ratiovision.resized ⟨.finite 1067, .finite 600⟩ (Ieee.camera 16 9)).ratioWidth
          (Ieee.Ratiovision.resized ⟨.finite 1067, .finite 600⟩ (Ieee.camera 16 9)).ratioHeight =
        .finite (2001599834386887 / 1125899906842624) ∧
      JsNumber.finite (8006399337547549 / 4503599627370496) ≠ JsNumber.finite (2001599834386887 / 1125899906842624)) := by
  have h1 : JsNumber.div (.finite 0) (.finite 16) = .finite 0 :=
    JsNumber.div_finite_zero _ _ (by norm_num) (by norm_num)
  have h2 : JsNumber.mul (.finite 0) (.finite 9) = .finite 0 :=
    JsNumber.mul_finite_zero _ _ (by norm_num)
  have h3 : JsNumber.gt (.finite 0) (.finite 1080) = false := by
    simp only [JsNumber.gt, decide_eq_false_iff_not]
    norm_num
  have h4 : JsNumber.mul (.finite 9) (.finite 0) = .finite 0 :=
    JsNumber.mul_finite_zero _ _ (by norm_num)
  have h5 : JsNumber.sub (.finite 1080) (.finite 0) = .finite 1080 :=
    JsNumber.sub_finite_round _ _ (1 / 2 ^ 42) 1080 4749890231992320 (-42)
      (by norm_num) (by norm_num [zpow_neg]) (by norm_num [abs_of_pos, abs_of_neg])
      (by norm_num [abs_of_pos, abs_of_neg])
      (roundHalfEven_eq_of_near _ _ (by norm_num [abs_lt]))
      (by norm_num) (by norm_num [abs_lt])
  have h6 : JsNumber.div (.finite 1080) (.finite 2) = .finite 540 :=
    JsNumber.div_finite_round _ _ (1 / 2 ^ 43) 540 4749890231992320 (-43) (by norm_num)
      (by norm_num) (by norm_num [zpow_neg]) (by norm_num [abs_of_pos, abs_of_neg])
      (by norm_num [abs_of_pos, abs_of_neg])
      (roundHalfEven_eq_of_near _ _ (by norm_num [abs_lt]))
      (by norm_num) (by norm_num [abs_lt])
  have h7 : JsNumber.mul (.finite 0) (.finite 16) = .finite 0 :=
    JsNumber.mul_finite_zero _ _ (by norm_num)
  have h8 : JsNumber.mul (.finite 0) (.finite 9) = .finite 0 :=
    JsNumber.mul_finite_zero _ _ (by norm_num)
  have h9 : JsNumber.div (.finite 0) (.finite 100) = .finite 0 :=
    JsNumber.div_finite_zero _ _ (by norm_num) (by norm_num)
  obtain ⟨-, -, -, -, -, -, z7, z8, -, -, -⟩ :=
    resized_fields_binary64 ⟨.finite 0, .finite 1080⟩ (Ieee.camera 16 9)
  simp only [Ieee.Ratiovision.gridLength, Ieee.camera, h1, h2, h3, h4, h5, h6, h7, h8, h9,
    Bool.false_eq_true, if_false, if_true] at z7 z8
  have hz_maxX : (Ieee.Ratiovision.resized ⟨.finite 0, .finite 1080⟩ (Ieee.camera 16 9)).maxX =
      .finite 0 := z7
  have hz_maxY : (Ieee.Ratiovision.resized ⟨.finite 0, .finite 1080⟩ (Ieee.camera 16 9)).maxY =
      .finite 0 := z8
  have h10 : JsNumber.div (.finite 1067) (.finite 16) = .finite (1067 / 16) :=
    JsNumber.div_finite_round _ _ (1 / 2 ^ 46) (1067 / 16) 4692715627347968 (-46) (by norm_num)
      (by norm_num) (by norm_num [zpow_neg]) (by norm_num [abs_of_pos, abs_of_neg])
      (by norm_num [abs_of_pos, abs_of_neg])
      (roundHalfEven_eq_of_near _ _ (by norm_num [abs_lt]))
      (by norm_num) (by norm_num [abs_lt])
  have h11 : JsNumber.mul (.finite (1067 / 16)) (.finite 9) = .finite (9603 / 16) :=
    JsNumber.mul_finite_round _ _ (1 / 2 ^ 43) (9603 / 16) 5279305080766464 (-43)
      (by norm_num) (by norm_num [zpow_neg]) (by norm_num [abs_of_pos, abs_of_neg])
      (by norm_num [abs_of_pos, abs_of_neg])
      (roundHalfEven_eq_of_near _ _ (by norm_num [abs_lt]))
      (by norm_num) (by norm_num [abs_lt])
  have h12 : JsNumber.gt (.finite (9603 / 16)) (.finite 600) = true := by
    simp only [JsNumber.gt, decide_eq_true_eq]
    norm_num
  have h13 : JsNumber.div (.finite 600) (.finite 9) = .finite (4691249611844267 / 70368744177664) :=
    JsNumber.div_finite_round _ _ (1 / 2 ^ 46) (4691249611844267 / 70368744177664) 4691249611844267 (-46) (by norm_num)
      (by norm_num) (by norm_num [zpow_neg]) (by norm_num [abs_of_pos, abs_of_neg])
      (by norm_num [abs_of_pos, abs_of_neg])
      (roundHalfEven_eq_of_near _ _ (by norm_num [abs_lt]))
      (by norm_num) (by norm_num [abs_lt])
  have h14 : JsNumber.mul (.finite 16) (.finite (4691249611844267 / 70368744177664)) = .finite (4691249611844267 / 4398046511104) :=
    JsNumber.mul_finite_round _ _ (1 / 2 ^ 42) (4691249611844267 / 4398046511104) 4691249611844267 (-42)
      (by norm_num) (by norm_num [zpow_neg]) (by norm_num [abs_of_pos, abs_of_neg])
      (by norm_num [abs_of_pos, abs_of_neg])
      (roundHalfEven_eq_of_near _ _ (by norm_num [abs_lt]))
      (by norm_num) (by norm_num [abs_lt])
  have h15 : JsNumber.sub (.finite 1067) (.finite (4691249611844267 / 4398046511104)) = .finite (1466015503701 / 4398046511104) :=
    JsNumber.sub_finite_round _ _ (1 / 2 ^ 54) (1466015503701 / 4398046511104) 6004799503159296 (-54)
      (by norm_num) (by norm_num [zpow_neg]) (by norm_num [abs_of_pos, abs_of_neg])
      (by norm_num [abs_of_pos, abs_of_neg])
      (roundHalfEven_eq_of_near _ _ (by norm_num [abs_lt]))
      (by norm_num) (by norm_num [abs_lt])
  have h16 : JsNumber.div (.finite (1466015503701 / 4398046511104)) (.finite 2) = .finite (1466015503701 / 8796093022208) :=
    JsNumber.div_finite_round _ _ (1 / 2 ^ 55) (1466015503701 / 8796093022208) 6004799503159296 (-55) (by norm_num)
      (by norm_num) (by norm_num [zpow_neg]) (by norm_num [abs_of_pos, abs_of_neg])
      (by norm_num [abs_of_pos, abs_of_neg])
      (roundHalfEven_eq_of_near _ _ (by norm_num [abs_lt]))
      (by norm_num) (by norm_num [abs_lt])
  have h17 : JsNumber.mul (.finite 9) (.finite (4691249611844267 / 70368744177664)) = .finite 600 :=
    JsNumber.mul_finite_round _ _ (1 / 2 ^ 43) 600 5277655813324800 (-43)
      (by norm_num) (by norm_num [zpow_neg]) (by norm_num [abs_of_pos, abs_of_neg])
      (by norm_num [abs_of_pos, abs_of_neg])
      (roundHalfEven_eq_of_near _ _ (by norm_num [abs_lt]))
      (by norm_num) (by norm_num [abs_lt])
  have h18 : JsNumber.sub (.finite 600) (.finite 600) = .finite 0 :=
    JsNumber.sub_finite_zero _ _ (by norm_num)
  have h19 : JsNumber.div (.finite 0) (.finite 2) = .finite 0 :=
    JsNumber.div_finite_zero _ _ (by norm_num) (by norm_num)
  have h20 : JsNumber.mul (.finite (4691249611844267 / 70368744177664)) (.finite 16) = .finite (4691249611844267 / 4398046511104) :=
    JsNumber.mul_finite_round _ _ (1 / 2 ^ 42) (4691249611844267 / 4398046511104) 4691249611844267 (-42)
      (by norm_num) (by norm_num [zpow_neg]) (by norm_num [abs_of_pos, abs_of_neg])
      (by norm_num [abs_of_pos, abs_of_neg])
      (roundHalfEven_eq_of_near _ _ (by norm_num [abs_lt]))
      (by norm_num) (by norm_num [abs_lt])
  have h21 : JsNumber.mul (.finite (4691249611844267 / 70368744177664)) (.finite 9) = .finite 600 :=
    JsNumber.mul_finite_round _ _ (1 / 2 ^ 43) 600 5277655813324800 (-43)
      (by norm_num) (by norm_num [zpow_neg]) (by norm_num [abs_of_pos, abs_of_neg])
      (by norm_num [abs_of_pos, abs_of_neg])
      (roundHalfEven_eq_of_near _ _ (by norm_num [abs_lt]))
      (by norm_num) (by norm_num [abs_lt])
  have h22 : JsNumber.div (.finite (4691249611844267 / 70368744177664)) (.finite 100) = .finite (3002399751580331 / 4503599627370496) :=
    JsNumber.div_finite_round _ _ (1 / 2 ^ 53) (3002399751580331 / 4503599627370496) 6004799503160662 (-53) (by norm_num)
      (by norm_num) (by norm_num [zpow_neg]) (by norm_num [abs_of_pos, abs_of_neg])
      (by norm_num [abs_of_pos, abs_of_neg])
      (roundHalfEven_eq_of_near _ _ (by norm_num [abs_lt]))
      (by norm_num) (by norm_num [abs_lt])
  have h23 : JsNumber.div (.finite (4691249611844267 / 4398046511104)) (.finite 600) = .finite (8006399337547549 / 4503599627370496) :=
    JsNumber.div_finite_round _ _ (1 / 2 ^ 52) (8006399337547549 / 4503599627370496) 8006399337547549 (-52) (by norm_num)
      (by norm_num) (by norm_num [zpow_neg]) (by norm_num [abs_of_pos, abs_of_neg])
      (by norm_num [abs_of_pos, abs_of_neg])
      (roundHalfEven_eq_of_near _ _ (by norm_num [abs_lt]))
      (by norm_num) (by norm_num [abs_lt])
  have h24 : JsNumber.div (.finite 16) (.finite 9) = .finite (2001599834386887 / 1125899906842624) :=
    JsNumber.div_finite_round _ _ (1 / 2 ^ 52) (2001599834386887 / 1125899906842624) 8006399337547548 (-52) (by norm_num)
      (by norm_num) (by norm_num [zpow_neg]) (by norm_num [abs_of_pos, abs_of_neg])
      (by norm_num [abs_of_pos, abs_of_neg])
      (roundHalfEven_eq_of_near _ _ (by norm_num [abs_lt]))
      (by norm_num) (by norm_num [abs_lt])
  obtain ⟨e1, e2, -, -, -, -, e7, e8, -, -, -⟩ :=
    resized_fields_binary64 ⟨.finite 1067, .finite 600⟩ (Ieee.camera 16 9)
  simp only [Ieee.Ratiovision.gridLength, Ieee.camera, h10, h11, h12, h13, h14, h15, h16, h17, h18, h19, h20, h21, h22,
    Bool.false_eq_true, if_false, if_true] at e1 e2 e7 e8
  have h_ratioWidth : (Ieee.Ratiovision.resized ⟨.finite 1067, .finite 600⟩ (Ieee.camera 16 9)).ratioWidth =
      .finite 16 := e1
  have h_ratioHeight : (Ieee.Ratiovision.resized ⟨.finite 1067, .finite 600⟩ (Ieee.camera 16 9)).ratioHeight =
      .finite 9 := e2
  have h_maxX : (Ieee.Ratiovision.resized ⟨.finite 1067, .finite 600⟩ (Ieee.camera 16 9)).maxX =
      .finite (4691249611844267 / 4398046511104) := e7
  have h_maxY : (Ieee.Ratiovision.resized ⟨.finite 1067, .finite 600⟩ (Ieee.camera 16 9)).maxY =
      .finite 600 := e8
  refine ⟨⟨hz_maxX, hz_maxY, ?_⟩, ?_, ?_, ?_⟩
  · rw [hz_maxX, hz_maxY]
    simp only [JsNumber.div, if_true]
  · rw [h_maxX, h_maxY, h23]
  · rw [h_ratioWidth, h_ratioHeight, h24]
  · intro h
    rw [JsNumber.finite.injEq] at h
    norm_num at h

/-- C17, counterexample: the 3:7 camera on a 13 by 29 display, in binary64 arithmetic.
The height branch is taken; `x` is 0.2857142857142847 and `7 * (29 / 7)` rounds to
29.000000000000004, so `y = (29 - 29.000000000000004) / 2 = -2 ^ -49` is negative and
neither offset is 0. -/
theorem letterbox_fails_in_doubles :
    (Ieee.Ratiovision.resized ⟨.finite 13, .finite 29⟩ (Ieee.camera 3 7)).x =
        .finite (40210710958665 / 140737488355328) ∧
      (Ieee.Ratiovision.resized ⟨.finite 13, .finite 29⟩ (Ieee.camera 3 7)).y =
        .finite (-1 / 562949953421312) ∧
      ((-1 / 562949953421312) : ℚ) < 0 ∧
      JsNumber.finite (40210710958665 / 140737488355328) ≠ JsNumber.finite 0 ∧
      JsNumber.finite (-1 / 562949953421312) ≠ JsNumber.finite 0 := by
  have h1 : JsNumber.div (.finite 13) (.finite 3) = .finite (4878899596318037 / 1125899906842624) :=
    JsNumber.div_finite_round _ _ (1 / 2 ^ 50) (4878899596318037 / 1125899906842624) 4878899596318037 (-50) (by norm_num)
      (by norm_num) (by norm_num [zpow_neg]) (by norm_num [abs_of_pos, abs_of_neg])
      (by norm_num [abs_of_pos, abs_of_neg])
      (roundHalfEven_eq_of_near _ _ (by norm_num [abs_lt]))
      (by norm_num) (by norm_num [abs_lt])
  have h2 : JsNumber.mul (.finite (4878899596318037 / 1125899906842624)) (.finite 7) = .finite (8538074293556565 / 281474976710656) :=
    JsNumber.mul_finite_round _ _ (1 / 2 ^ 48) (8538074293556565 / 281474976710656) 8538074293556565 (-48)
      (by norm_num) (by norm_num [zpow_neg]) (by norm_num [abs_of_pos, abs_of_neg])
      (by norm_num [abs_of_pos, abs_of_neg])
      (roundHalfEven_eq_of_near _ _ (by norm_num [abs_lt]))
      (by norm_num) (by norm_num [abs_lt])
  have h3 : JsNumber.gt (.finite (8538074293556565 / 281474976710656)) (.finite 29) = true := by
    simp only [JsNumber.gt, decide_eq_true_eq]
    norm_num
  have h4 : JsNumber.div (.finite 29) (.finite 7) = .finite (4664442471205157 / 1125899906842624) :=
    JsNumber.div_finite_round _ _ (1 / 2 ^ 50) (4664442471205157 / 1125899906842624) 4664442471205157 (-50) (by norm_num)
      (by norm_num) (by norm_num [zpow_neg]) (by norm_num [abs_of_pos, abs_of_neg])
      (by norm_num [abs_of_pos, abs_of_neg])
      (roundHalfEven_eq_of_near _ _ (by norm_num [abs_lt]))
      (by norm_num) (by norm_num [abs_lt])
  have h5 : JsNumber.mul (.finite 3) (.finite (4664442471205157 / 1125899906842624)) = .finite (874582963350967 / 70368744177664) :=
    JsNumber.mul_finite_round _ _ (1 / 2 ^ 49) (874582963350967 / 70368744177664) 6996663706807736 (-49)
      (by norm_num) (by norm_num [zpow_neg]) (by norm_num [abs_of_pos, abs_of_neg])
      (by norm_num [abs_of_pos, abs_of_neg])
      (roundHalfEven_eq_of_tie _ _ (Or.inr (by norm_num)) (by decide))
      (by norm_num) (by norm_num [abs_lt])
  have h6 : JsNumber.sub (.finite 13) (.finite (874582963350967 / 70368744177664)) = .finite (40210710958665 / 70368744177664) :=
    JsNumber.sub_finite_round _ _ (1 / 2 ^ 53) (40210710958665 / 70368744177664) 5146971002709120 (-53)
      (by norm_num) (by norm_num [zpow_neg]) (by norm_num [abs_of_pos, abs_of_neg])
      (by norm_num [abs_of_pos, abs_of_neg])
      (roundHalfEven_eq_of_near _ _ (by norm_num [abs_lt]))
      (by norm_num) (by norm_num [abs_lt])
  have h7 : JsNumber.div (.finite (40210710958665 / 70368744177664)) (.finite 2) = .finite (40210710958665 / 140737488355328) :=
    JsNumber.div_finite_round _ _ (1 / 2 ^ 54) (40210710958665 / 140737488355328) 5146971002709120 (-54) (by norm_num)
      (by norm_num) (by norm_num [zpow_neg]) (by norm_num [abs_of_pos, abs_of_neg])
      (by norm_num [abs_of_pos, abs_of_neg])
      (roundHalfEven_eq_of_near _ _ (by norm_num [abs_lt]))
      (by norm_num) (by norm_num [abs_lt])
  have h8 : JsNumber.mul (.finite 7) (.finite (4664442471205157 / 1125899906842624)) = .finite (8162774324609025 / 281474976710656) :=
    JsNumber.mul_finite_round _ _ (1 / 2 ^ 48) (8162774324609025 / 281474976710656) 8162774324609025 (-48)
      (by norm_num) (by norm_num [zpow_neg]) (by norm_num [abs_of_pos, abs_of_neg])
      (by norm_num [abs_of_pos, abs_of_neg])
      (roundHalfEven_eq_of_near _ _ (by norm_num [abs_lt]))
      (by norm_num) (by norm_num [abs_lt])
  have h9 : JsNumber.sub (.finite 29) (.finite (8162774324609025 / 281474976710656)) = .finite (-1 / 281474976710656) :=
    JsNumber.sub_finite_round _ _ (1 / 2 ^ 100) (-1 / 281474976710656) (-4503599627370496) (-100)
      (by norm_num) (by norm_num [zpow_neg]) (by norm_num [abs_of_pos, abs_of_neg])
      (by norm_num [abs_of_pos, abs_of_neg])
      (roundHalfEven_eq_of_near _ _ (by norm_num [abs_lt]))
      (by norm_num) (by norm_num [abs_lt])
  have h10 : JsNumber.div (.finite (-1 / 281474976710656)) (.finite 2) = .finite (-1 / 562949953421312) :=
    JsNumber.div_finite_round _ _ (1 / 2 ^ 101) (-1 / 562949953421312) (-4503599627370496) (-101) (by norm_num)
      (by norm_num) (by norm_num [zpow_neg]) (by norm_num [abs_of_pos, abs_of_neg])
      (by norm_num [abs_of_pos, abs_of_neg])
      (roundHalfEven_eq_of_near _ _ (by norm_num [abs_lt]))
      (by norm_num) (by norm_num [abs_lt])
  have h11 : JsNumber.mul (.finite (4664442471205157 / 1125899906842624)) (.finite 3) = .finite (874582963350967 / 70368744177664) :=
    JsNumber.mul_finite_round _ _ (1 / 2 ^ 49) (874582963350967 / 70368744177664) 6996663706807736 (-49)
      (by norm_num) (by norm_num [zpow_neg]) (by norm_num [abs_of_pos, abs_of_neg])
      (by norm_num [abs_of_pos, abs_of_neg])
      (roundHalfEven_eq_of_tie _ _ (Or.inr (by norm_num)) (by decide))
      (by norm_num) (by norm_num [abs_lt])
  have h12 : JsNumber.mul (.finite (4664442471205157 / 1125899906842624)) (.finite 7) = .finite (8162774324609025 / 281474976710656) :=
    JsNumber.mul_finite_round _ _ (1 / 2 ^ 48) (8162774324609025 / 281474976710656) 8162774324609025 (-48)
      (by norm_num) (by norm_num [zpow_neg]) (by norm_num [abs_of_pos, abs_of_neg])
      (by norm_num [abs_of_pos, abs_of_neg])
      (roundHalfEven_eq_of_near _ _ (by norm_num [abs_lt]))
      (by norm_num) (by norm_num [abs_lt])
  have h13 : JsNumber.div (.finite (4664442471205157 / 1125899906842624)) (.finite 100) = .finite (5970486363142601 / 144115188075855872) :=
    JsNumber.div_finite_round _ _ (1 / 2 ^ 57) (5970486363142601 / 144115188075855872) 5970486363142601 (-57) (by norm_num)
      (by norm_num) (by norm_num [zpow_neg]) (by norm_num [abs_of_pos, abs_of_neg])
      (by norm_num [abs_of_pos, abs_of_neg])
      (roundHalfEven_eq_of_near _ _ (by norm_num [abs_lt]))
      (by norm_num) (by norm_num [abs_lt])
  obtain ⟨-, -, -, -, -, -, -, -, -, e10, e11⟩ :=
    resized_fields_binary64 ⟨.finite 13, .finite 29⟩ (Ieee.camera 3 7)
  simp only [Ieee.Ratiovision.gridLength, Ieee.camera, h1, h2, h3, h4, h5, h6, h7, h8, h9, h10, h11, h12, h13,
    Bool.false_eq_true, if_false, if_true] at e11 e10
  have h_x : (Ieee.Ratiovision.resized ⟨.finite 13, .finite 29⟩ (Ieee.camera 3 7)).x =
      .finite (40210710958665 / 140737488355328) := e11
  have h_y : (Ieee.Ratiovision.resized ⟨.finite 13, .finite 29⟩ (Ieee.camera 3 7)).y =
      .finite (-1 / 562949953421312) := e10
  refine ⟨h_x, h_y, by norm_num, ?_, ?_⟩
  · intro h
    rw [JsNumber.finite.injEq] at h
    norm_num at h
  · intro h
    rw [JsNumber.finite.injEq] at h
    norm_num at h

/-- C18, counterexample: the 16:9 camera with 100 points on a 66 by 37 display, in
binary64 arithmetic.  `maxY` is 37 and `y` is 0, but `scale` is 0.041111111111111105 and
`(ratioHeight * points) * scale = 900 * scale` is 36.99999999999999: the last horizontal
line, `drawLine(0, 900, 1600, 900)` (the last call of `drawGrid()`, its logical
coordinates being integers), is drawn at device `y` 36.99999999999999 and not on the
bottom edge `y + maxY = 37`. -/
theorem far_edge_fails_in_doubles :
    (Ieee.Ratiovision.resized ⟨.finite 66, .finite 37⟩ (Ieee.camera 16 9)).maxY = .finite 37 ∧
      JsNumber.mul (JsNumber.mul (Ieee.Ratiovision.resized ⟨.finite 66, .finite 37⟩ (Ieee.camera 16 9)).ratioHeight
          (Ieee.Ratiovision.resized ⟨.finite 66, .finite 37⟩ (Ieee.camera 16 9)).points)
          (Ieee.Ratiovision.resized ⟨.finite 66, .finite 37⟩ (Ieee.camera 16 9)).scale =
        .finite (5207287069147135 / 140737488355328) ∧
      ((Ieee.Ratiovision.resized ⟨.finite 66, .finite 37⟩ (Ieee.camera 16 9)).drawLine
          (.finite 0) (.finite 900) (.finite 1600) (.finite 900) "green").2 =
        [Ieee.CtxOp.beginPath,
         Ieee.CtxOp.moveTo (.finite (3909374676537 / 35184372088832))
           (.finite (5207287069147135 / 140737488355328)),
         Ieee.CtxOp.setStrokeStyle "green",
         Ieee.CtxOp.lineTo (.finite (2318259183186375 / 35184372088832))
           (.finite (5207287069147135 / 140737488355328)),
         Ieee.CtxOp.stroke] ∧
      JsNumber.add (Ieee.Ratiovision.resized ⟨.finite 66, .finite 37⟩ (Ieee.camera 16 9)).y
          (Ieee.Ratiovision.resized ⟨.finite 66, .finite 37⟩ (Ieee.camera 16 9)).maxY = .finite 37 ∧
      JsNumber.finite (5207287069147135 / 140737488355328) ≠ JsNumber.finite 37 ∧
      JsNumber.finite (5207287069147135 / 140737488355328) ≠ JsNumber.finite 37 ∧
      (∃ calls, Ratiovision.drawGridCalls 18 camera169 = some calls ∧
        calls.getLast? = some (LineArgs.mk 0 900 1600 900 "green")) := by
  have h1 : JsNumber.div (.finite 66) (.finite 16) = .finite (33 / 8) :=
    JsNumber.div_finite_round _ _ (1 / 2 ^ 50) (33 / 8) 4644337115725824 (-50) (by norm_num)
      (by norm_num) (by norm_num [zpow_neg]) (by norm_num [abs_of_pos, abs_of_neg])
      (by norm_num [abs_of_pos, abs_of_neg])
      (roundHalfEven_eq_of_near _ _ (by norm_num [abs_lt]))
      (by norm_num) (by norm_num [abs_lt])
  have h2 : JsNumber.mul (.finite (33 / 8)) (.finite 9) = .finite (297 / 8) :=
    JsNumber.mul_finite_round _ _ (1 / 2 ^ 47) (297 / 8) 5224879255191552 (-47)
      (by norm_num) (by norm_num [zpow_neg]) (by norm_num [abs_of_pos, abs_of_neg])
      (by norm_num [abs_of_pos, abs_of_neg])
      (roundHalfEven_eq_of_near _ _ (by norm_num [abs_lt]))
      (by norm_num) (by norm_num [abs_lt])
  have h3 : JsNumber.gt (.finite (297 / 8)) (.finite 37) = true := by
    simp only [JsNumber.gt, decide_eq_true_eq]
    norm_num
  have h4 : JsNumber.div (.finite 37) (.finite 9) = .finite (1157174904254919 / 281474976710656) :=
    JsNumber.div_finite_round _ _ (1 / 2 ^ 50) (1157174904254919 / 281474976710656) 4628699617019676 (-50) (by norm_num)
      (by norm_num) (by norm_num [zpow_neg]) (by norm_num [abs_of_pos, abs_of_neg])
      (by norm_num [abs_of_pos, abs_of_neg])
      (roundHalfEven_eq_of_near _ _ (by norm_num [abs_lt]))
      (by norm_num) (by norm_num [abs_lt])
  have h5 : JsNumber.mul (.finite 16) (.finite (1157174904254919 / 281474976710656)) = .finite (1157174904254919 / 17592186044416) :=
    JsNumber.mul_finite_round _ _ (1 / 2 ^ 46) (1157174904254919 / 17592186044416) 4628699617019676 (-46)
      (by norm_num) (by norm_num [zpow_neg]) (by norm_num [abs_of_pos, abs_of_neg])
      (by norm_num [abs_of_pos, abs_of_neg])
      (roundHalfEven_eq_of_near _ _ (by norm_num [abs_lt]))
      (by norm_num) (by norm_num [abs_lt])
  have h6 : JsNumber.sub (.finite 66) (.finite (1157174904254919 / 17592186044416)) = .finite (3909374676537 / 17592186044416) :=
    JsNumber.sub_finite_round _ _ (1 / 2 ^ 55) (3909374676537 / 17592186044416) 8006399337547776 (-55)
      (by norm_num) (by norm_num [zpow_neg]) (by norm_num [abs_of_pos, abs_of_neg])
      (by norm_num [abs_of_pos, abs_of_neg])
      (roundHalfEven_eq_of_near _ _ (by norm_num [abs_lt]))
      (by norm_num) (by norm_num [abs_lt])
  have h7 : JsNumber.div (.finite (3909374676537 / 17592186044416)) (.finite 2) = .finite (3909374676537 / 35184372088832) :=
    JsNumber.div_finite_round _ _ (1 / 2 ^ 56) (3909374676537 / 35184372088832) 8006399337547776 (-56) (by norm_num)
      (by norm_num) (by norm_num [zpow_neg]) (by norm_num [abs_of_pos, abs_of_neg])
      (by norm_num [abs_of_pos, abs_of_neg])
      (roundHalfEven_eq_of_near _ _ (by norm_num [abs_lt]))
      (by norm_num) (by norm_num [abs_lt])
  have h8 : JsNumber.mul (.finite 9) (.finite (1157174904254919 / 281474976710656)) = .finite 37 :=
    JsNumber.mul_finite_round _ _ (1 / 2 ^ 47) 37 5207287069147136 (-47)
      (by norm_num) (by norm_num [zpow_neg]) (by norm_num [abs_of_pos, abs_of_neg])
      (by norm_num [abs_of_pos, abs_of_neg])
      (roundHalfEven_eq_of_tie _ _ (Or.inr (by norm_num)) (by decide))
      (by norm_num) (by norm_num [abs_lt])
  have h9 : JsNumber.sub (.finite 37) (.finite 37) = .finite 0 :=
    JsNumber.sub_finite_zero _ _ (by norm_num)
  have h10 : JsNumber.div (.finite 0) (.finite 2) = .finite 0 :=
    JsNumber.div_finite_zero _ _ (by norm_num) (by norm_num)
  have h11 : JsNumber.mul (.finite (1157174904254919 / 281474976710656)) (.finite 16) = .finite (1157174904254919 / 17592186044416) :=
    JsNumber.mul_finite_round _ _ (1 / 2 ^ 46) (1157174904254919 / 17592186044416) 4628699617019676 (-46)
      (by norm_num) (by norm_num [zpow_neg]) (by norm_num [abs_of_pos, abs_of_neg])
      (by norm_num [abs_of_pos, abs_of_neg])
      (roundHalfEven_eq_of_near _ _ (by norm_num [abs_lt]))
      (by norm_num) (by norm_num [abs_lt])
  have h12 : JsNumber.mul (.finite (1157174904254919 / 281474976710656)) (.finite 9) = .finite 37 :=
    JsNumber.mul_finite_round _ _ (1 / 2 ^ 47) 37 5207287069147136 (-47)
      (by norm_num) (by norm_num [zpow_neg]) (by norm_num [abs_of_pos, abs_of_neg])
      (by norm_num [abs_of_pos, abs_of_neg])
      (roundHalfEven_eq_of_tie _ _ (Or.inr (by norm_num)) (by decide))
      (by norm_num) (by norm_num [abs_lt])
  have h13 : JsNumber.div (.finite (1157174904254919 / 281474976710656)) (.finite 100) = .finite (5924735509785185 / 144115188075855872) :=
    JsNumber.div_finite_round _ _ (1 / 2 ^ 57) (5924735509785185 / 144115188075855872) 5924735509785185 (-57) (by norm_num)
      (by norm_num) (by norm_num [zpow_neg]) (by norm_num [abs_of_pos, abs_of_neg])
      (by norm_num [abs_of_pos, abs_of_neg])
      (roundHalfEven_eq_of_near _ _ (by norm_num [abs_lt]))
      (by norm_num) (by norm_num [abs_lt])
  have h14 : JsNumber.mul (.finite 9) (.finite 100) = .finite 900 :=
    JsNumber.mul_finite_round _ _ (1 / 2 ^ 43) 900 7916483719987200 (-43)
      (by norm_num) (by norm_num [zpow_neg]) (by norm_num [abs_of_pos, abs_of_neg])
      (by norm_num [abs_of_pos, abs_of_neg])
      (roundHalfEven_eq_of_near _ _ (by norm_num [abs_lt]))
      (by norm_num) (by norm_num [abs_lt])
  have h15 : JsNumber.mul (.finite 900) (.finite (5924735509785185 / 144115188075855872)) = .finite (5207287069147135 / 140737488355328) :=
    JsNumber.mul_finite_round _ _ (1 / 2 ^ 47) (5207287069147135 / 140737488355328) 5207287069147135 (-47)
      (by norm_num) (by norm_num [zpow_neg]) (by norm_num [abs_of_pos, abs_of_neg])
      (by norm_num [abs_of_pos, abs_of_neg])
      (roundHalfEven_eq_of_near _ _ (by norm_num [abs_lt]))
      (by norm_num) (by norm_num [abs_lt])
  have h16 : JsNumber.add (.finite 0) (.finite 37) = .finite 37 :=
    JsNumber.add_finite_round _ _ (1 / 2 ^ 47) 37 5207287069147136 (-47)
      (by norm_num) (by norm_num [zpow_neg]) (by norm_num [abs_of_pos, abs_of_neg])
      (by norm_num [abs_of_pos, abs_of_neg])
      (roundHalfEven_eq_of_near _ _ (by norm_num [abs_lt]))
      (by norm_num) (by norm_num [abs_lt])
  have h17 : JsNumber.mul (.finite 0) (.finite (5924735509785185 / 144115188075855872)) = .finite 0 :=
    JsNumber.mul_finite_zero _ _ (by norm_num)
  have h18 : JsNumber.add (.finite (3909374676537 / 35184372088832)) (.finite 0) = .finite (3909374676537 / 35184372088832) :=
    JsNumber.add_finite_round _ _ (1 / 2 ^ 56) (3909374676537 / 35184372088832) 8006399337547776 (-56)
      (by norm_num) (by norm_num [zpow_neg]) (by norm_num [abs_of_pos, abs_of_neg])
      (by norm_num [abs_of_pos, abs_of_neg])
      (roundHalfEven_eq_of_near _ _ (by norm_num [abs_lt]))
      (by norm_num) (by norm_num [abs_lt])
  have h19 : JsNumber.add (.finite 0) (.finite (5207287069147135 / 140737488355328)) = .finite (5207287069147135 / 140737488355328) :=
    JsNumber.add_finite_round _ _ (1 / 2 ^ 47) (5207287069147135 / 140737488355328) 5207287069147135 (-47)
      (by norm_num) (by norm_num [zpow_neg]) (by norm_num [abs_of_pos, abs_of_neg])
      (by norm_num [abs_of_pos, abs_of_neg])
      (roundHalfEven_eq_of_near _ _ (by norm_num [abs_lt]))
      (by norm_num) (by norm_num [abs_lt])
  have h20 : JsNumber.mul (.finite 1600) (.finite (5924735509785185 / 144115188075855872)) = .finite (1157174904254919 / 17592186044416) :=
    JsNumber.mul_finite_round _ _ (1 / 2 ^ 46) (1157174904254919 / 17592186044416) 4628699617019676 (-46)
      (by norm_num) (by norm_num [zpow_neg]) (by norm_num [abs_of_pos, abs_of_neg])
      (by norm_num [abs_of_pos, abs_of_neg])
      (roundHalfEven_eq_of_near _ _ (by norm_num [abs_lt]))
      (by norm_num) (by norm_num [abs_lt])
  have h21 : JsNumber.add (.finite (3909374676537 / 35184372088832)) (.finite (1157174904254919 / 17592186044416)) = .finite (2318259183186375 / 35184372088832) :=
    JsNumber.add_finite_round _ _ (1 / 2 ^ 46) (2318259183186375 / 35184372088832) 4636518366372750 (-46)
      (by norm_num) (by norm_num [zpow_neg]) (by norm_num [abs_of_pos, abs_of_neg])
      (by norm_num [abs_of_pos, abs_of_neg])
      (roundHalfEven_eq_of_near _ _ (by norm_num [abs_lt]))
      (by norm_num) (by norm_num [abs_lt])
  obtain ⟨-, e2, e3, -, -, -, -, e8, e9, e10, e11⟩ :=
    resized_fields_binary64 ⟨.finite 66, .finite 37⟩ (Ieee.camera 16 9)
  simp only [Ieee.Ratiovision.gridLength, Ieee.camera, h1, h2, h3, h4, h5, h6, h7, h8, h9, h10, h11, h12, h13,
    Bool.false_eq_true, if_false, if_true] at e2 e3 e11 e10 e8 e9
  have h_ratioHeight : (Ieee.Ratiovision.resized ⟨.finite 66, .finite 37⟩ (Ieee.camera 16 9)).ratioHeight =
      .finite 9 := e2
  have h_points : (Ieee.Ratiovision.resized ⟨.finite 66, .finite 37⟩ (Ieee.camera 16 9)).points =
      .finite 100 := e3
  have h_x : (Ieee.Ratiovision.resized ⟨.finite 66, .finite 37⟩ (Ieee.camera 16 9)).x =
      .finite (3909374676537 / 35184372088832) := e11
  have h_y : (Ieee.Ratiovision.resized ⟨.finite 66, .finite 37⟩ (Ieee.camera 16 9)).y =
      .finite 0 := e10
  have h_maxY : (Ieee.Ratiovision.resized ⟨.finite 66, .finite 37⟩ (Ieee.camera 16 9)).maxY =
      .finite 37 := e8
  have h_scale : (Ieee.Ratiovision.resized ⟨.finite 66, .finite 37⟩ (Ieee.camera 16 9)).scale =
      .finite (5924735509785185 / 144115188075855872) := e9
  refine ⟨h_maxY, ?_, ?_, ?_, ?_, ?_, ?_⟩
  · rw [h_ratioHeight, h_points, h_scale, h14, h15]
  · simp only [Ieee.Ratiovision.drawLine, h_x, h_y, h_scale, h17, h18, h15, h19, h20, h21]
  · rw [h_y, h_maxY, h16]
  · intro h
    rw [JsNumber.finite.injEq] at h
    norm_num at h
  · intro h
    rw [JsNumber.finite.injEq] at h
    norm_num at h
  · refine ⟨_, drawGridCalls_eq camera169 16 9 100 (by decide) (by norm_num [camera169])
      (by norm_num [camera169]) (by norm_num [camera169]) 18 (by decide) (by decide), ?_⟩
    rw [List.range'_concat 0 9, List.map_append, ← List.append_assoc, List.map_cons,
      List.map_nil, List.getLast?_concat]
    norm_num [horizontalLine, camera169]

end WholeDoor
